import Mathlib

/-!
# Verification of the dynantic object-mapping layer

A shallow embedding of the parts of `dynantic` (a Python object-mapper over
DynamoDB) needed to settle the frozen claims:

* `src/dynantic/serializer.py` — `DynamoSerializer` (wire encoding/decoding),
  together with the behaviour of the external `boto3` `TypeSerializer` /
  `TypeDeserializer` it delegates scalar tagging to;
* `src/dynantic/config.py` — `GSIDefinition`, `ModelOptions`;
* `src/dynantic/base.py` — `DynamoModel._deserialize_item`;
* `src/dynantic/query.py` / `src/dynantic/scan.py` — builder state, kwargs
  assembly and the lazy paginated iteration loop;
* `src/dynantic/updates.py` — update actions, validation, compilation,
  execution;
* `src/dynantic/exceptions.py` — `handle_dynamo_errors`.

Conventions:

* Python `dict`s are modelled as ordered association lists
  (`List (String × _)`) with Python's update semantics (`alookup`, `aset`).
* Python numbers flowing through the serializer are modelled by their exact
  decimal values as `ℚ`: a `float` is represented by the exact value of its
  shortest `repr` numeral (the code converts floats via `Decimal(str(v))`,
  which is exact for that numeral, and `float(s)` of that numeral returns the
  original float), and a `Decimal` by its exact value.  The store's 38-digit
  precision cap and non-finite floats are outside the model.
* Python `set`s are modelled as their element enumeration (a `List`); the
  encode/decode functions act elementwise, so list-level equality entails
  set-level equality.
-/

namespace Dynantic

/-- Association-list lookup, modelling Python `dict.get` / `d[k]`. -/
def alookup {α : Type} : List (String × α) → String → Option α
  | [], _ => none
  | (k, v) :: rest, key => if k = key then some v else alookup rest key

/-- Association-list update, modelling Python `d[k] = v`: an existing key keeps
its position and gets the new value, a new key is appended. -/
def aset {α : Type} : List (String × α) → String → α → List (String × α)
  | [], key, val => [(key, val)]
  | (k, v) :: rest, key, val =>
      if k = key then (k, val) :: rest else (k, v) :: aset rest key val

/-- Whether a key is present, modelling Python `k in d`. -/
def ahas {α : Type} (d : List (String × α)) (key : String) : Bool :=
  (alookup d key).isSome

/-- Dict merge, modelling Python `{**a, **b}`. -/
def amerge {α : Type} (a b : List (String × α)) : List (String × α) :=
  b.foldl (fun acc kv => aset acc kv.1 kv.2) a

/-- Python truthiness of an optional string attribute (`None` and `""` are
falsy), used for `if self.config.discriminator_value and ...`-style tests. -/
def truthyStrOpt : Option String → Bool
  | none => false
  | some s => s ≠ ""

/-! ## Python values and the wire format

`PyVal` covers the Python values the serializer works over (minus
datetime/date/UUID/Enum, which `_prepare_for_dynamo` maps to strings/scalars
before they reach the wire, and which the claims do not need).  `Wire` is the
DynamoDB attribute-value tagged union. -/

inductive PyVal : Type where
  | pnone
  | pbool (b : Bool)
  | pint (n : ℤ)
  | pfloat (q : ℚ)
  | pdec (q : ℚ)
  | pstr (s : String)
  | pbytes (bs : List Nat)
  | pset (xs : List PyVal)
  | plist (xs : List PyVal)
  | pmap (kvs : List (String × PyVal))
deriving Repr

inductive Wire : Type where
  | S (s : String)
  | N (q : ℚ)
  | BOOL (b : Bool)
  | B (bs : List Nat)
  | NULL
  | SS (xs : List String)
  | NS (qs : List ℚ)
  | BS (xs : List (List Nat))
  | L (xs : List Wire)
  | M (kvs : List (String × Wire))
deriving Repr

mutual

/-- Structural equality on wire values (Python `==` on the encoded dicts). -/
def wireEq : Wire → Wire → Bool
  | .S a, .S b => a = b
  | .N a, .N b => a = b
  | .BOOL a, .BOOL b => a = b
  | .B a, .B b => a = b
  | .NULL, .NULL => true
  | .SS a, .SS b => a = b
  | .NS a, .NS b => a = b
  | .BS a, .BS b => a = b
  | .L a, .L b => wireEqList a b
  | .M a, .M b => wireEqKVs a b
  | _, _ => false

/-- Elementwise `wireEq` on lists. -/
def wireEqList : List Wire → List Wire → Bool
  | [], [] => true
  | a :: as', b :: bs' => wireEq a b && wireEqList as' bs'
  | _, _ => false

/-- Keywise `wireEq` on maps. -/
def wireEqKVs : List (String × Wire) → List (String × Wire) → Bool
  | [], [] => true
  | (ka, va) :: as', (kb, vb) :: bs' => ka = kb && wireEq va vb && wireEqKVs as' bs'
  | _, _ => false

end

/-- Python truthiness of a value (`if discriminator_value:`). -/
def pyTruthy : PyVal → Bool
  | .pnone => false
  | .pbool b => b
  | .pint n => n ≠ 0
  | .pfloat q => q ≠ 0
  | .pdec q => q ≠ 0
  | .pstr s => s ≠ ""
  | .pbytes bs => bs ≠ []
  | .pset xs => !xs.isEmpty
  | .plist xs => !xs.isEmpty
  | .pmap kvs => !kvs.isEmpty

/-! ## `DynamoSerializer` (serializer.py)

`_prepare_for_dynamo` (serializer.py lines 89-131) recursively readies values
for the boto3 `TypeSerializer`: floats become `Decimal(str(v))` (exact for the
repr numeral, hence value-preserving in the `ℚ` model), sets/lists/dicts
recurse, everything else (int, str, bytes, bool, None, Decimal) passes
through.  The datetime/date/UUID/Enum branches map to strings/scalars and are
outside the modelled domain. -/

mutual

def prepare_for_dynamo : PyVal → PyVal
  | .pfloat q => .pdec q
  | .pset xs => .pset (prepareList xs)
  | .plist xs => .plist (prepareList xs)
  | .pmap kvs => .pmap (prepareKVs kvs)
  | v => v

def prepareList : List PyVal → List PyVal
  | [] => []
  | v :: vs => prepare_for_dynamo v :: prepareList vs

def prepareKVs : List (String × PyVal) → List (String × PyVal)
  | [] => []
  | (k, v) :: kvs => (k, prepare_for_dynamo v) :: prepareKVs kvs

end

/-- A set element that is a float (whose presence makes the boto3 number test
raise `TypeError`). -/
def isFloatElem : PyVal → Bool
  | .pfloat _ => true
  | _ => false

/-- boto3 `TypeSerializer._is_number` on a set element: int and Decimal count,
bool counts too (Python `bool` is an `int` subclass), a float raises. -/
def isNumElem : PyVal → Bool
  | .pint _ => true
  | .pdec _ => true
  | .pbool _ => true
  | _ => false

/-- A set element that is a string. -/
def isStrElem : PyVal → Bool
  | .pstr _ => true
  | _ => false

/-- A set element that is binary. -/
def isBytesElem : PyVal → Bool
  | .pbytes _ => true
  | _ => false

/-- The exact numeric value a number-like set element contributes to an `NS`
wire set (`_serialize_ns` stringifies each element through the decimal
context; `True` stringifies as `1`). -/
def numElemVal : PyVal → ℚ
  | .pint n => (n : ℚ)
  | .pdec q => q
  | .pbool b => if b then 1 else 0
  | _ => 0

/-- The string carried by a string set element. -/
def strElemVal : PyVal → String
  | .pstr s => s
  | _ => ""

/-- The bytes carried by a binary set element. -/
def bytesElemVal : PyVal → List Nat
  | .pbytes bs => bs
  | _ => []

mutual

/-- The external boto3 `TypeSerializer.serialize`: dispatches on the Python
type (null, bool, number, string, binary, number-set, string-set, binary-set,
map, list in that order) and errors (`TypeError`) on floats — "Float types are
not supported. Use Decimal types instead." — on inhomogeneous sets and on
unsupported scalars.  An empty set passes the number-set test vacuously and
serializes as `NS []`. -/
def b3serialize : PyVal → Except String Wire
  | .pnone => .ok .NULL
  | .pbool b => .ok (.BOOL b)
  | .pint n => .ok (.N (n : ℚ))
  | .pdec q => .ok (.N q)
  | .pfloat _ => .error "Float types are not supported. Use Decimal types instead."
  | .pstr s => .ok (.S s)
  | .pbytes bs => .ok (.B bs)
  | .pset xs =>
      if xs.any isFloatElem then
        .error "Float types are not supported. Use Decimal types instead."
      else if xs.all isNumElem then .ok (.NS (xs.map numElemVal))
      else if xs.all isStrElem then .ok (.SS (xs.map strElemVal))
      else if xs.all isBytesElem then .ok (.BS (xs.map bytesElemVal))
      else .error "Unsupported set type"
  | .plist xs => do
      let ws ← b3serializeList xs
      .ok (.L ws)
  | .pmap kvs => do
      let ws ← b3serializeKVs kvs
      .ok (.M ws)

def b3serializeList : List PyVal → Except String (List Wire)
  | [] => .ok []
  | v :: vs => do
      let w ← b3serialize v
      let ws ← b3serializeList vs
      .ok (w :: ws)

def b3serializeKVs : List (String × PyVal) → Except String (List (String × Wire))
  | [] => .ok []
  | (k, v) :: kvs => do
      let w ← b3serialize v
      let ws ← b3serializeKVs kvs
      .ok ((k, w) :: ws)

end

mutual

/-- The external boto3 `TypeDeserializer.deserialize`: `N` becomes a `Decimal`
(exact), `NS` a set of `Decimal`s, `SS`/`BS` sets of strings/bytes, `L`/`M`
recurse. -/
def b3deserialize : Wire → PyVal
  | .NULL => .pnone
  | .BOOL b => .pbool b
  | .N q => .pdec q
  | .S s => .pstr s
  | .B bs => .pbytes bs
  | .SS xs => .pset (xs.map .pstr)
  | .NS qs => .pset (qs.map .pdec)
  | .BS xs => .pset (xs.map .pbytes)
  | .L xs => .plist (b3deserializeList xs)
  | .M kvs => .pmap (b3deserializeKVs kvs)

def b3deserializeList : List Wire → List PyVal
  | [] => []
  | w :: ws => b3deserialize w :: b3deserializeList ws

def b3deserializeKVs : List (String × Wire) → List (String × PyVal)
  | [] => []
  | (k, w) :: kvs => (k, b3deserialize w) :: b3deserializeKVs kvs

end

mutual

/-- `DynamoSerializer._restore_to_python` (serializer.py lines 133-148):
a `Decimal` narrows to an int when its fractional part is zero and to a float
otherwise; lists and dicts recurse; everything else — including sets, whose
`Decimal` members are therefore NOT narrowed — is returned unchanged. -/
def restore_to_python : PyVal → PyVal
  | .pdec q => if q.den = 1 then .pint q.num else .pfloat q
  | .plist xs => .plist (restoreList xs)
  | .pmap kvs => .pmap (restoreKVs kvs)
  | v => v

def restoreList : List PyVal → List PyVal
  | [] => []
  | v :: vs => restore_to_python v :: restoreList vs

def restoreKVs : List (String × PyVal) → List (String × PyVal)
  | [] => []
  | (k, v) :: kvs => (k, restore_to_python v) :: restoreKVs kvs

end

/-- The emptiness test guarding the output insertion in `to_dynamo`
(serializer.py line 43): `isinstance(v, (set, frozenset)) and len(v) == 0`. -/
def isEmptySet : PyVal → Bool
  | .pset [] => true
  | _ => false

/-- The per-field loop of `DynamoSerializer.to_dynamo` (serializer.py lines
33-44) over the already-prepared dict: each value is serialized (a
`TypeError` becomes a `DynamoSerializationError` naming the field), and a
field whose (prepared) value is an empty set is dropped from the result. -/
def to_dynamo_fields : List (String × PyVal) → Except String (List (String × Wire))
  | [] => .ok []
  | (k, v) :: rest =>
      match b3serialize v with
      | .error e => .error ("Failed to serialize field '" ++ k ++ "'. error=" ++ e)
      | .ok w =>
          match to_dynamo_fields rest with
          | .error e => .error e
          | .ok ws => .ok (if isEmptySet v then ws else (k, w) :: ws)

/-- `DynamoSerializer.to_dynamo` (serializer.py lines 28-45). -/
def to_dynamo (data : List (String × PyVal)) : Except String (List (String × Wire)) :=
  to_dynamo_fields (prepareKVs data)

/-- `DynamoSerializer.to_dynamo_value` (serializer.py lines 47-60). -/
def to_dynamo_value (v : PyVal) : Except String Wire :=
  match b3serialize (prepare_for_dynamo v) with
  | .error e => .error ("Failed to serialize value. error=" ++ e)
  | .ok w => .ok w

/-- `DynamoSerializer.from_dynamo` (serializer.py lines 62-67): deserialize
each attribute, then `_restore_to_python` on the resulting dict (which
recurses into its values). -/
def from_dynamo (item : List (String × Wire)) : List (String × PyVal) :=
  restoreKVs (item.map fun kw => (kw.1, b3deserialize kw.2))

/-! ## Round-trip normal form

`restoreNorm v` is the value `from_dynamo ∘ to_dynamo` actually hands back for
a field holding `v`: numbers re-enter as `int` when their fractional part is
zero and as `float` otherwise, number-set members re-enter as `Decimal`s
(because `_restore_to_python` does not recurse into sets), string/binary sets
and all other scalars are unchanged, lists and maps recurse.  `WireSafe`
carves out the values the wire can encode at all: set members must be
homogeneously numeric (no floats survive preparation, so these may be
int/float/Decimal/bool), string, or binary. -/

/-- How a single set member re-enters: numeric members come back as the
`Decimal` of their exact value, strings and bytes unchanged. -/
def setElemNorm : PyVal → PyVal
  | .pint n => .pdec (n : ℚ)
  | .pfloat q => .pdec q
  | .pbool b => .pdec (if b then 1 else 0)
  | x => x

mutual

/-- The decode-side normal form reached after one encode/decode cycle. -/
def restoreNorm : PyVal → PyVal
  | .pnone => .pnone
  | .pbool b => .pbool b
  | .pint n => .pint n
  | .pfloat q => if q.den = 1 then .pint q.num else .pfloat q
  | .pdec q => if q.den = 1 then .pint q.num else .pfloat q
  | .pstr s => .pstr s
  | .pbytes bs => .pbytes bs
  | .pset xs => .pset (xs.map setElemNorm)
  | .plist xs => .plist (restoreNormList xs)
  | .pmap kvs => .pmap (restoreNormKVs kvs)

def restoreNormList : List PyVal → List PyVal
  | [] => []
  | v :: vs => restoreNorm v :: restoreNormList vs

def restoreNormKVs : List (String × PyVal) → List (String × PyVal)
  | [] => []
  | (k, v) :: kvs => (k, restoreNorm v) :: restoreNormKVs kvs

end

/-- A set element whose prepared form is numeric: int, Decimal, bool, or a
float (which preparation converts to a Decimal). -/
def isNumLikeElem : PyVal → Bool
  | .pint _ => true
  | .pdec _ => true
  | .pbool _ => true
  | .pfloat _ => true
  | _ => false

mutual

/-- The values the serializer can place on the wire: sets must be homogeneous
(all number-like, all string, or all binary), containers recurse, scalars are
unrestricted. -/
def WireSafe : PyVal → Bool
  | .pset xs => xs.all isNumLikeElem || xs.all isStrElem || xs.all isBytesElem
  | .plist xs => wireSafeList xs
  | .pmap kvs => wireSafeKVs kvs
  | _ => true

def wireSafeList : List PyVal → Bool
  | [] => true
  | v :: vs => WireSafe v && wireSafeList vs

def wireSafeKVs : List (String × PyVal) → Bool
  | [] => true
  | (_, v) :: kvs => WireSafe v && wireSafeKVs kvs

end

/-! ### Round-trip lemmas for the serializer -/

theorem prepareList_eq_map (xs : List PyVal) :
    prepareList xs = xs.map prepare_for_dynamo := by
  induction xs with
  | nil => rfl
  | cons v vs ih => simp [prepareList, ih]

theorem b3deserializeList_eq_map (ws : List Wire) :
    b3deserializeList ws = ws.map b3deserialize := by
  induction ws with
  | nil => rfl
  | cons w ws ih => simp [b3deserializeList, ih]

theorem restoreNormList_eq_map (xs : List PyVal) :
    restoreNormList xs = xs.map restoreNorm := by
  induction xs with
  | nil => rfl
  | cons v vs ih => simp [restoreNormList, ih]

theorem restoreList_eq_map (xs : List PyVal) :
    restoreList xs = xs.map restore_to_python := by
  induction xs with
  | nil => rfl
  | cons v vs ih => simp [restoreList, ih]

/-- Preparation of a number-like set element: no float survives, the result is
numeric for the boto3 dispatch, and its exact value re-enters as the element's
`setElemNorm`. -/
theorem prep_num_spec (x : PyVal) (h : isNumLikeElem x = true) :
    isFloatElem (prepare_for_dynamo x) = false ∧
    isNumElem (prepare_for_dynamo x) = true ∧
    PyVal.pdec (numElemVal (prepare_for_dynamo x)) = setElemNorm x := by
  cases x <;>
    simp_all [isNumLikeElem, isFloatElem, isNumElem, numElemVal,
      prepare_for_dynamo, setElemNorm]

/-- String set elements pass through preparation unchanged. -/
theorem prep_str_spec (x : PyVal) (h : isStrElem x = true) :
    prepare_for_dynamo x = x ∧ isFloatElem x = false ∧ isNumElem x = false ∧
    PyVal.pstr (strElemVal x) = x ∧ setElemNorm x = x := by
  cases x <;>
    simp_all [isStrElem, isFloatElem, isNumElem, strElemVal,
      prepare_for_dynamo, setElemNorm]

/-- Binary set elements pass through preparation unchanged. -/
theorem prep_bytes_spec (x : PyVal) (h : isBytesElem x = true) :
    prepare_for_dynamo x = x ∧ isFloatElem x = false ∧ isNumElem x = false ∧
    isStrElem x = false ∧ PyVal.pbytes (bytesElemVal x) = x ∧ setElemNorm x = x := by
  cases x <;>
    simp_all [isBytesElem, isStrElem, isFloatElem, isNumElem, bytesElemVal,
      prepare_for_dynamo, setElemNorm]

mutual

/-- One encode/decode cycle of a single wire-safe value lands on its decode
normal form `restoreNorm`. -/
theorem roundtrip_val : ∀ v : PyVal, WireSafe v = true →
    ∃ w, b3serialize (prepare_for_dynamo v) = Except.ok w ∧
      restore_to_python (b3deserialize w) = restoreNorm v
  | .pnone, _ => ⟨.NULL, rfl, rfl⟩
  | .pbool b, _ => ⟨.BOOL b, rfl, rfl⟩
  | .pstr s, _ => ⟨.S s, rfl, rfl⟩
  | .pbytes bs, _ => ⟨.B bs, rfl, rfl⟩
  | .pint n, _ => ⟨.N (n : ℚ), rfl, by
      show restore_to_python (.pdec (n : ℚ)) = restoreNorm (.pint n)
      simp [restore_to_python, restoreNorm, Rat.den_intCast, Rat.num_intCast]⟩
  | .pfloat q, _ => ⟨.N q, rfl, by
      show restore_to_python (.pdec q) = restoreNorm (.pfloat q)
      simp [restore_to_python, restoreNorm]⟩
  | .pdec q, _ => ⟨.N q, rfl, by
      show restore_to_python (.pdec q) = restoreNorm (.pdec q)
      simp [restore_to_python, restoreNorm]⟩
  | .pset xs, h => by
      have h' : ((∀ x ∈ xs, isNumLikeElem x = true) ∨
          (∀ x ∈ xs, isStrElem x = true)) ∨ (∀ x ∈ xs, isBytesElem x = true) := by
        simpa [WireSafe, Bool.or_eq_true, List.all_eq_true] using h
      rcases h' with (hmem | hmem) | hmem
      · -- all elements number-like: the prepared set serializes as `NS`
        have hany : (prepareList xs).any isFloatElem = false := by
          rw [prepareList_eq_map]
          simp only [List.any_map, List.any_eq_false]
          intro x hx
          simp [Function.comp, (prep_num_spec x (hmem x hx)).1]
        have hall : (prepareList xs).all isNumElem = true := by
          rw [prepareList_eq_map]
          simp only [List.all_map, List.all_eq_true]
          intro x hx
          simp [Function.comp, (prep_num_spec x (hmem x hx)).2.1]
        refine ⟨.NS ((prepareList xs).map numElemVal), ?_, ?_⟩
        · show b3serialize (.pset (prepareList xs)) = _
          simp [b3serialize, hany, hall]
        · show restore_to_python
              (.pset (((prepareList xs).map numElemVal).map .pdec)) =
            restoreNorm (.pset xs)
          have : (((prepareList xs).map numElemVal).map PyVal.pdec) =
              xs.map setElemNorm := by
            rw [prepareList_eq_map]
            simp only [List.map_map]
            exact List.map_congr_left fun x hx => (prep_num_spec x (hmem x hx)).2.2
          exact congrArg PyVal.pset this
      · -- all elements strings
        have hprep : prepareList xs = xs := by
          rw [prepareList_eq_map]
          exact List.map_congr_left (fun x hx => (prep_str_spec x (hmem x hx)).1)
            |>.trans xs.map_id
        cases xs with
        | nil =>
            exact ⟨.NS [], by show b3serialize (.pset (prepareList [])) = _; rfl, rfl⟩
        | cons x xs' =>
            have hany : (x :: xs').any isFloatElem = false := by
              simp only [List.any_eq_false]
              intro y hy
              simp [(prep_str_spec y (hmem y hy)).2.1]
            have hnum : (x :: xs').all isNumElem = false := by
              simp only [List.all_eq_false]
              exact ⟨x, by simp, by simp [(prep_str_spec x (hmem x (by simp))).2.2.1]⟩
            have hstr : (x :: xs').all isStrElem = true := by
              simpa [List.all_eq_true] using hmem
            refine ⟨.SS ((x :: xs').map strElemVal), ?_, ?_⟩
            · show b3serialize (.pset (prepareList (x :: xs'))) = _
              rw [hprep]
              simp [b3serialize, hany, hnum, hstr]
            · show restore_to_python
                  (.pset (((x :: xs').map strElemVal).map .pstr)) =
                restoreNorm (.pset (x :: xs'))
              have : (((x :: xs').map strElemVal).map PyVal.pstr) =
                  (x :: xs').map setElemNorm := by
                simp only [List.map_map]
                exact List.map_congr_left fun y hy => by
                  rw [Function.comp_apply, (prep_str_spec y (hmem y hy)).2.2.2.1,
                    (prep_str_spec y (hmem y hy)).2.2.2.2]
              exact congrArg PyVal.pset this
      · -- all elements binary
        have hprep : prepareList xs = xs := by
          rw [prepareList_eq_map]
          exact List.map_congr_left (fun x hx => (prep_bytes_spec x (hmem x hx)).1)
            |>.trans xs.map_id
        cases xs with
        | nil =>
            exact ⟨.NS [], by show b3serialize (.pset (prepareList [])) = _; rfl, rfl⟩
        | cons x xs' =>
            have hany : (x :: xs').any isFloatElem = false := by
              simp only [List.any_eq_false]
              intro y hy
              simp [(prep_bytes_spec y (hmem y hy)).2.1]
            have hnum : (x :: xs').all isNumElem = false := by
              simp only [List.all_eq_false]
              exact ⟨x, by simp, by simp [(prep_bytes_spec x (hmem x (by simp))).2.2.1]⟩
            have hstr : (x :: xs').all isStrElem = false := by
              simp only [List.all_eq_false]
              exact ⟨x, by simp, by simp [(prep_bytes_spec x (hmem x (by simp))).2.2.2.1]⟩
            have hby : (x :: xs').all isBytesElem = true := by
              simpa [List.all_eq_true] using hmem
            refine ⟨.BS ((x :: xs').map bytesElemVal), ?_, ?_⟩
            · show b3serialize (.pset (prepareList (x :: xs'))) = _
              rw [hprep]
              simp [b3serialize, hany, hnum, hstr, hby]
            · show restore_to_python
                  (.pset (((x :: xs').map bytesElemVal).map .pbytes)) =
                restoreNorm (.pset (x :: xs'))
              have : (((x :: xs').map bytesElemVal).map PyVal.pbytes) =
                  (x :: xs').map setElemNorm := by
                simp only [List.map_map]
                exact List.map_congr_left fun y hy => by
                  rw [Function.comp_apply, (prep_bytes_spec y (hmem y hy)).2.2.2.2.1,
                    (prep_bytes_spec y (hmem y hy)).2.2.2.2.2]
              exact congrArg PyVal.pset this
  | .plist xs, h => by
      obtain ⟨ws, hw, hr⟩ := roundtrip_list xs (by simpa [WireSafe] using h)
      refine ⟨.L ws, ?_, ?_⟩
      · show b3serialize (.plist (prepareList xs)) = _
        simp only [b3serialize, hw]
        rfl
      · show restore_to_python (b3deserialize (.L ws)) = restoreNorm (.plist xs)
        show PyVal.plist (restoreList (b3deserializeList ws)) =
          PyVal.plist (restoreNormList xs)
        exact congrArg PyVal.plist hr
  | .pmap kvs, h => by
      obtain ⟨ws, hw, hr⟩ := roundtrip_kvs kvs (by simpa [WireSafe] using h)
      refine ⟨.M ws, ?_, ?_⟩
      · show b3serialize (.pmap (prepareKVs kvs)) = _
        simp only [b3serialize, hw]
        rfl
      · show restore_to_python (b3deserialize (.M ws)) = restoreNorm (.pmap kvs)
        show PyVal.pmap (restoreKVs (b3deserializeKVs ws)) =
          PyVal.pmap (restoreNormKVs kvs)
        exact congrArg PyVal.pmap hr

theorem roundtrip_list : ∀ xs : List PyVal, wireSafeList xs = true →
    ∃ ws, b3serializeList (prepareList xs) = Except.ok ws ∧
      restoreList (b3deserializeList ws) = restoreNormList xs
  | [], _ => ⟨[], rfl, rfl⟩
  | v :: vs, h => by
      have h1 : WireSafe v = true ∧ wireSafeList vs = true := by
        simpa [wireSafeList, Bool.and_eq_true] using h
      obtain ⟨w, hw, hr⟩ := roundtrip_val v h1.1
      obtain ⟨ws, hws, hrs⟩ := roundtrip_list vs h1.2
      refine ⟨w :: ws, ?_, ?_⟩
      · show b3serializeList (prepare_for_dynamo v :: prepareList vs) = _
        simp only [b3serializeList, hw, hws]
        rfl
      · show restore_to_python (b3deserialize w) ::
            restoreList (b3deserializeList ws) = _
        rw [hr, hrs]
        rfl

theorem roundtrip_kvs : ∀ kvs : List (String × PyVal), wireSafeKVs kvs = true →
    ∃ ws, b3serializeKVs (prepareKVs kvs) = Except.ok ws ∧
      restoreKVs (b3deserializeKVs ws) = restoreNormKVs kvs
  | [], _ => ⟨[], rfl, rfl⟩
  | (k, v) :: kvs, h => by
      have h1 : WireSafe v = true ∧ wireSafeKVs kvs = true := by
        simpa [wireSafeKVs, Bool.and_eq_true] using h
      obtain ⟨w, hw, hr⟩ := roundtrip_val v h1.1
      obtain ⟨ws, hws, hrs⟩ := roundtrip_kvs kvs h1.2
      refine ⟨(k, w) :: ws, ?_, ?_⟩
      · show b3serializeKVs ((k, prepare_for_dynamo v) :: prepareKVs kvs) = _
        simp only [b3serializeKVs, hw, hws]
        rfl
      · show (k, restore_to_python (b3deserialize w)) ::
            restoreKVs (b3deserializeKVs ws) = _
        rw [hr, hrs]
        rfl

end

/-- Preparation does not create or destroy empty sets. -/
theorem isEmptySet_prepare (v : PyVal) :
    isEmptySet (prepare_for_dynamo v) = isEmptySet v := by
  cases v with
  | pset xs => cases xs <;> simp [prepare_for_dynamo, prepareList, isEmptySet]
  | _ => simp [prepare_for_dynamo, isEmptySet]

/-- Every field of a wire-safe dict serializes, and the encoded output carries
exactly the keys whose (un-prepared) value is not an empty set, in order. -/
theorem to_dynamo_keys (kvs : List (String × PyVal))
    (h : ∀ kv ∈ kvs, WireSafe kv.2 = true) :
    ∃ res, to_dynamo_fields (prepareKVs kvs) = Except.ok res ∧
      res.map Prod.fst =
        (kvs.filter fun kv => !isEmptySet kv.2).map Prod.fst := by
  induction kvs with
  | nil => exact ⟨[], rfl, rfl⟩
  | cons kv rest ih =>
      obtain ⟨k, v⟩ := kv
      obtain ⟨w, hw, -⟩ := roundtrip_val v (h (k, v) (List.Mem.head _))
      obtain ⟨res, hres, hkeys⟩ := ih fun kv hkv => h kv (List.mem_cons_of_mem _ hkv)
      by_cases hempty : isEmptySet v = true
      · refine ⟨res, ?_, ?_⟩
        · show to_dynamo_fields ((k, prepare_for_dynamo v) :: prepareKVs rest) = _
          rw [to_dynamo_fields, hw, hres, isEmptySet_prepare, hempty]
          rfl
        · rw [hkeys, List.filter_cons]
          simp [hempty]
      · rw [Bool.not_eq_true] at hempty
        refine ⟨(k, w) :: res, ?_, ?_⟩
        · show to_dynamo_fields ((k, prepare_for_dynamo v) :: prepareKVs rest) = _
          rw [to_dynamo_fields, hw, hres, isEmptySet_prepare, hempty]
          rfl
        · rw [List.filter_cons]
          simp [hempty, hkeys]

/-- In a list with `Nodup` keys (a Python dict), a key determines its value. -/
theorem assoc_nodup_unique {α : Type} :
    ∀ (l : List (String × α)), (l.map Prod.fst).Nodup →
      ∀ {k : String} {a b : α}, (k, a) ∈ l → (k, b) ∈ l → a = b := by
  intro l
  induction l with
  | nil => intro _ k a b ha; cases ha
  | cons kv rest ih =>
      obtain ⟨k0, v0⟩ := kv
      intro hnodup k a b ha hb
      rw [List.map_cons, List.nodup_cons] at hnodup
      rcases List.mem_cons.mp ha with ha' | ha' <;>
        rcases List.mem_cons.mp hb with hb' | hb'
      · cases ha'
        injection hb' with h1 h2
        exact h2.symm
      · cases ha'
        exact absurd (List.mem_map_of_mem Prod.fst hb') hnodup.1
      · cases hb'
        exact absurd (List.mem_map_of_mem Prod.fst ha') hnodup.1
      · exact ih hnodup.2 ha' hb'

/-! ## Claim theorems: serializer (C1, C5) -/

/-- C1 (corrected).  Round-trip through the serializer: for every wire-safe
value `v` that is not an empty set, `from_dynamo (to_dynamo {k: v})` yields
`{k: restoreNorm v}` — equal to `{k: v}` except that floats and Decimals with
zero fractional part decode as the corresponding integers, non-integral
Decimals decode as floats, and number-set members decode as Decimals (sets
are not recursed by `_restore_to_python`).  The claim's "single documented
exception" reading fails: see the counterexample, where a field bound to an
empty set is dropped entirely. -/
theorem serializer_roundtrip_normal_form (k : String) (v : PyVal)
    (hsafe : WireSafe v = true) (hne : isEmptySet v = false) :
    ∃ w, to_dynamo [(k, v)] = Except.ok [(k, w)] ∧
      from_dynamo [(k, w)] = [(k, restoreNorm v)] := by
  obtain ⟨w, hw, hr⟩ := roundtrip_val v hsafe
  refine ⟨w, ?_, ?_⟩
  · show to_dynamo_fields ((k, prepare_for_dynamo v) :: prepareKVs []) = _
    rw [to_dynamo_fields, hw, isEmptySet_prepare, hne]
    rfl
  · show restoreKVs [(k, b3deserialize w)] = _
    rw [restoreKVs, hr]
    rfl

/-- Witness for C1: the documented float asymmetry at a concrete input —
`{"score": 10.0}` encodes to `{"N": "10"}` and decodes to the integer 10. -/
theorem serializer_roundtrip_normal_form_witness :
    WireSafe (.pfloat 10) = true ∧ isEmptySet (.pfloat 10) = false ∧
    restoreNorm (.pfloat 10) = .pint 10 ∧
    (∃ w, to_dynamo [("score", .pfloat 10)] = Except.ok [("score", w)] ∧
      from_dynamo [("score", w)] = [("score", restoreNorm (.pfloat 10))]) :=
  ⟨rfl, rfl, rfl, serializer_roundtrip_normal_form "score" (.pfloat 10) rfl rfl⟩

/-- C1 counterexample.  The claim as stated (round trip up to the single
float exception) is false: `{"tags": set()}` is a supported collection value,
yet `to_dynamo` drops the field, so the round trip returns `{}`, not
`{"tags": set()}`. -/
theorem serializer_roundtrip_claim_counterexample :
    to_dynamo [("tags", PyVal.pset [])] = Except.ok [] ∧
    from_dynamo ([] : List (String × Wire)) = [] ∧
    ([] : List (String × PyVal)) ≠ [("tags", PyVal.pset [])] :=
  ⟨rfl, rfl, by simp⟩

/-- C5 (confirmed).  Encoding a dict with a field bound to an empty set does
not raise: serialization succeeds and the encoded item simply has no key for
that field. -/
theorem to_dynamo_empty_set_field_dropped (data : List (String × PyVal))
    (k : String) (hsafe : ∀ kv ∈ data, WireSafe kv.2 = true)
    (hnodup : (data.map Prod.fst).Nodup)
    (hmem : (k, PyVal.pset []) ∈ data) :
    ∃ res, to_dynamo data = Except.ok res ∧
      res.all (fun kw => kw.1 != k) = true := by
  obtain ⟨res, hres, hkeys⟩ := to_dynamo_keys data hsafe
  refine ⟨res, hres, ?_⟩
  rw [List.all_eq_true]
  intro kw hkw
  rw [bne_iff_ne]
  intro hk
  have : kw.1 ∈ res.map Prod.fst := List.mem_map_of_mem Prod.fst hkw
  rw [hkeys, hk] at this
  obtain ⟨⟨k', v'⟩, hmem', hfst⟩ := List.mem_map.mp this
  obtain ⟨hin, hfilter⟩ := List.mem_filter.mp hmem'
  have hk' : k' = k := hfst
  subst hk'
  have : v' = PyVal.pset [] := assoc_nodup_unique data hnodup hin hmem
  subst this
  simp [isEmptySet] at hfilter

/-- Witness for C5: mirrors the unit test `test_empty_set_filtered_out` —
`{"tags": set(), "active": True}` encodes with no `tags` key. -/
theorem to_dynamo_empty_set_field_dropped_witness :
    ∃ res, to_dynamo [("tags", PyVal.pset []), ("active", PyVal.pbool true)] =
        Except.ok res ∧ res.all (fun kw => kw.1 != "tags") = true :=
  to_dynamo_empty_set_field_dropped
    [("tags", PyVal.pset []), ("active", PyVal.pbool true)] "tags"
    (by
      intro kv hkv
      rcases hkv with _ | ⟨_, hkv⟩
      · rfl
      · rcases hkv with _ | ⟨_, hkv⟩
        · rfl
        · cases hkv)
    (by simp) (List.Mem.head _)

/-! ## Model metadata (config.py)

Model classes themselves are opaque to the claims; a class is identified by
its name (`String`).  `entity_registry` maps discriminator values to entity
class names, shared between a polymorphic base and its registered subtypes. -/

structure GSIDefinition where
  index_name : String
  pk_name : String
  pk_type : String := "S"
  sk_name : Option String := none
  sk_type : String := "S"
  projection_type : String := "ALL"
deriving Repr, DecidableEq

structure ModelOptions where
  table_name : String
  pk_name : String
  sk_name : Option String := none
  region : String := "us-east-1"
  gsi_definitions : List (String × GSIDefinition) := []
  discriminator_field : Option String := none
  entity_registry : List (String × String) := []
  is_base_entity : Bool := false
  parent_model : Option String := none
  discriminator_value : Option String := none
deriving Repr, DecidableEq

/-- `ModelOptions.get_gsi` (config.py lines 44-54). -/
def ModelOptions.get_gsi (cfg : ModelOptions) (index_name : String) :
    Option GSIDefinition :=
  alookup cfg.gsi_definitions index_name

/-- `ModelOptions.has_gsi` (config.py lines 56-66). -/
def ModelOptions.has_gsi (cfg : ModelOptions) (index_name : String) : Bool :=
  ahas cfg.gsi_definitions index_name

/-- `ModelOptions.is_polymorphic` (config.py lines 68-75). -/
def ModelOptions.is_polymorphic (cfg : ModelOptions) : Bool :=
  cfg.discriminator_field.isSome

/-- `ModelOptions.get_entity_class` (config.py lines 77-87): the registry is
keyed by discriminator strings, so a non-string raw value never matches. -/
def ModelOptions.get_entity_class (cfg : ModelOptions) (v : PyVal) :
    Option String :=
  match v with
  | .pstr s => alookup cfg.entity_registry s
  | _ => none

/-! ## Polymorphic item resolution (base.py `DynamoModel._deserialize_item`)

Instantiating a model class on a raw field map is represented by pairing the
chosen class name with the map; the validation layer's behaviour on
instantiation is outside this model.  The dispatch itself (base.py lines
876-906) is a total function — it has no raise path. -/

def deserialize_item (cls : String) (cfg : ModelOptions)
    (raw_data : List (String × PyVal)) : String × List (String × PyVal) :=
  if cfg.is_base_entity ∧ truthyStrOpt cfg.discriminator_field then
    match cfg.discriminator_field with
    | some df =>
        match alookup raw_data df with
        | some dv =>
            if pyTruthy dv then
              match cfg.get_entity_class dv with
              | some entity_class => (entity_class, raw_data)
              | none => (cls, raw_data)
            else (cls, raw_data)
        | none => (cls, raw_data)
    | none => (cls, raw_data)
  else (cls, raw_data)

/-! ## Claim theorem: polymorphic resolution fallback (C7) -/

/-- A registry hit can only come from a string-valued discriminator. -/
theorem get_entity_class_inv {cfg : ModelOptions} {dv : PyVal} {ec : String}
    (h : cfg.get_entity_class dv = some ec) :
    ∃ s, dv = .pstr s ∧ alookup cfg.entity_registry s = some ec := by
  cases dv <;> first
    | exact ⟨_, rfl, h⟩
    | simp [ModelOptions.get_entity_class] at h

/-- The raw map is always carried unchanged into the instantiated result. -/
theorem deserialize_item_snd (cls : String) (cfg : ModelOptions)
    (raw_data : List (String × PyVal)) :
    (deserialize_item cls cfg raw_data).2 = raw_data := by
  unfold deserialize_item
  repeat' split
  all_goals rfl

/-- The instantiated class is the invoking one or comes from the registry. -/
theorem deserialize_item_fst (cls : String) (cfg : ModelOptions)
    (raw_data : List (String × PyVal)) :
    (deserialize_item cls cfg raw_data).1 = cls ∨
      ∃ s, alookup cfg.entity_registry s =
        some (deserialize_item cls cfg raw_data).1 := by
  unfold deserialize_item
  repeat' split
  all_goals try (exact Or.inl rfl)
  rename_i hec
  obtain ⟨s, -, hs⟩ := get_entity_class_inv hec
  exact Or.inr ⟨s, hs⟩

/-- A non-polymorphic schema instantiates the invoking type directly. -/
theorem deserialize_item_nonpoly (cls : String) (cfg : ModelOptions)
    (raw_data : List (String × PyVal)) (h : cfg.is_polymorphic = false) :
    deserialize_item cls cfg raw_data = (cls, raw_data) := by
  have hdf : cfg.discriminator_field = none := by
    cases hh : cfg.discriminator_field with
    | none => rfl
    | some d => rw [ModelOptions.is_polymorphic, hh] at h; cases h
  simp [deserialize_item, hdf, truthyStrOpt]

/-- An absent discriminator value falls back to the invoking type. -/
theorem deserialize_item_absent (cls : String) (cfg : ModelOptions)
    (raw_data : List (String × PyVal)) (df : String)
    (hdf : cfg.discriminator_field = some df)
    (hnone : alookup raw_data df = none) :
    deserialize_item cls cfg raw_data = (cls, raw_data) := by
  unfold deserialize_item
  rw [hdf]
  split
  · simp [hnone]
  · rfl

/-- An unregistered (string) discriminator value falls back to the invoking
type. -/
theorem deserialize_item_unregistered (cls : String) (cfg : ModelOptions)
    (raw_data : List (String × PyVal)) (df s : String)
    (hdf : cfg.discriminator_field = some df)
    (hlook : alookup raw_data df = some (.pstr s))
    (hreg : alookup cfg.entity_registry s = none) :
    deserialize_item cls cfg raw_data = (cls, raw_data) := by
  unfold deserialize_item
  rw [hdf]
  split
  · by_cases hs : s = ""
    · subst hs
      simp [hlook, pyTruthy]
    · simp [hlook, pyTruthy, hs, ModelOptions.get_entity_class, hreg]
  · rfl

/-- C7 (confirmed).  Polymorphic item resolution is total (no raise path) and
falls back losslessly: the result always carries the raw map unchanged and
instantiates either a registered entity class or the invoking type; when the
discriminator value is absent or unregistered, the invoking base type itself
is instantiated; a non-polymorphic schema always instantiates the invoking
type directly. -/
theorem deserialize_item_fallback (cls : String) (cfg : ModelOptions)
    (raw_data : List (String × PyVal)) :
    ((deserialize_item cls cfg raw_data).2 = raw_data) ∧
    ((deserialize_item cls cfg raw_data).1 = cls ∨
      ∃ s, alookup cfg.entity_registry s =
        some (deserialize_item cls cfg raw_data).1) ∧
    (cfg.is_polymorphic = false →
      deserialize_item cls cfg raw_data = (cls, raw_data)) ∧
    (∀ df, cfg.discriminator_field = some df → alookup raw_data df = none →
      deserialize_item cls cfg raw_data = (cls, raw_data)) ∧
    (∀ df s, cfg.discriminator_field = some df →
      alookup raw_data df = some (.pstr s) →
      alookup cfg.entity_registry s = none →
      deserialize_item cls cfg raw_data = (cls, raw_data)) :=
  ⟨deserialize_item_snd cls cfg raw_data,
   deserialize_item_fst cls cfg raw_data,
   deserialize_item_nonpoly cls cfg raw_data,
   fun df hdf hnone => deserialize_item_absent cls cfg raw_data df hdf hnone,
   fun df s hdf hlook hreg =>
     deserialize_item_unregistered cls cfg raw_data df s hdf hlook hreg⟩

/-! ## Conditions (conditions.py)

User conditions (`DynCondition`) wrap predicate trees whose compilation is
delegated to the external expression builder (`compile_condition`); only the
tree shape is needed here, and compilation is passed in as a parameter
(`compileUser`) wherever the builders would call it. -/

inductive DynCondition : Type where
  | leaf (attr_name : String) (op : String) (operands : List PyVal)
  | dand (a b : DynCondition)
  | dor (a b : DynCondition)
  | dnot (a : DynCondition)

/-- The output shape of `compile_condition` (conditions.py lines 288-341):
expression text plus (possibly empty) name and value placeholder maps. -/
structure CompiledCondition where
  conditionExpression : String
  attributeNames : List (String × String) := []
  attributeValues : List (String × Wire) := []

/-! ## Query builder (query.py `DynamoQueryBuilder`) -/

structure DynamoQueryBuilder where
  model_cls : String
  config : ModelOptions
  pk_val : PyVal
  sk_condition : Option String
  limit_val : Option Int
  scan_forward : Bool
  index_name : Option String
  filter_conditions : List String
  filter_values : List (String × Wire)
  filter_names : List (String × String)
  user_filter_condition : Option DynCondition
  pk_name : String
  sk_name : Option String
  expression_values : List (String × Wire)
  expression_names : List (String × String)

/-- `DynamoQueryBuilder._add_discriminator_filter` (query.py lines 91-101);
the serialized discriminator value is passed in (it is a string, whose
serialization cannot fail). -/
def add_discriminator_filter (b : DynamoQueryBuilder) (disc_field : String)
    (disc_value_wire : Wire) : DynamoQueryBuilder :=
  { b with
    filter_conditions := b.filter_conditions ++ ["#disc = :disc_val"]
    filter_names := aset b.filter_names "#disc" disc_field
    filter_values := aset b.filter_values ":disc_val" disc_value_wire }

/-- The tail of `DynamoQueryBuilder.__init__` (query.py lines 62-72) once the
active key names are resolved: serialize the partition-key value into the
`":pk"` placeholder, seed the `"#pk"` name placeholder, and — when the schema
is a registered subtype (truthy discriminator value and field) — silently
append the discriminator filter. -/
def mkQueryRest (model_cls : String) (cfg : ModelOptions) (pk_val : PyVal)
    (index_name : Option String) (pk_name : String) (sk_name : Option String) :
    Except String DynamoQueryBuilder :=
  match to_dynamo_value pk_val with
  | .error e => .error e
  | .ok pk_wire =>
      let b : DynamoQueryBuilder :=
        { model_cls := model_cls
          config := cfg
          pk_val := pk_val
          sk_condition := none
          limit_val := none
          scan_forward := true
          index_name := index_name
          filter_conditions := []
          filter_values := []
          filter_names := []
          user_filter_condition := none
          pk_name := pk_name
          sk_name := sk_name
          expression_values := [(":pk", pk_wire)]
          expression_names := [("#pk", pk_name)] }
      if truthyStrOpt cfg.discriminator_value ∧
          truthyStrOpt cfg.discriminator_field then
        match cfg.discriminator_field, cfg.discriminator_value with
        | some df, some dv =>
            (match to_dynamo_value (.pstr dv) with
             | .ok w => Except.ok (add_discriminator_filter b df w)
             | .error e => Except.error e)
        | _, _ => Except.ok b
      else Except.ok b

/-- `DynamoQueryBuilder.__init__` (query.py lines 30-72): resolve the active
key names from the table schema or the chosen GSI (raising for an unknown
one), then seed the builder state. -/
def mkDynamoQueryBuilder (model_cls : String) (cfg : ModelOptions)
    (pk_val : PyVal) (index_name : Option String) :
    Except String DynamoQueryBuilder :=
  match index_name with
  | some idx =>
      (match cfg.get_gsi idx with
       | none => Except.error
           ("GSI '" ++ idx ++ "' is not defined on model " ++ model_cls)
       | some gsi =>
           mkQueryRest model_cls cfg pk_val index_name gsi.pk_name gsi.sk_name)
  | none => mkQueryRest model_cls cfg pk_val index_name cfg.pk_name cfg.sk_name

/-- `DynamoQueryBuilder.limit` (query.py lines 206-209). -/
def DynamoQueryBuilder.limit (b : DynamoQueryBuilder) (count : Int) :
    DynamoQueryBuilder :=
  { b with limit_val := some count }

/-- `DynamoQueryBuilder.reverse` (query.py lines 211-217). -/
def DynamoQueryBuilder.reverse (b : DynamoQueryBuilder) : DynamoQueryBuilder :=
  { b with scan_forward := false }

/-- `DynamoQueryBuilder.using_index` (query.py lines 262-282): re-resolves the
key field names from the GSI, re-seeds the `"#pk"` name placeholder (and the
`"#sk"` one when the new index has a sort key and `"#sk"` was already
seeded), and touches nothing else — in particular the `":pk"` value
placeholder keeps the value serialized at construction. -/
def DynamoQueryBuilder.using_index (b : DynamoQueryBuilder)
    (index_name : String) : Except String DynamoQueryBuilder :=
  match b.config.get_gsi index_name with
  | none => Except.error
      ("GSI '" ++ index_name ++ "' is not defined on model " ++ b.model_cls)
  | some gsi =>
      let en := aset b.expression_names "#pk" gsi.pk_name
      Except.ok
        { b with
          index_name := some index_name
          pk_name := gsi.pk_name
          sk_name := gsi.sk_name
          expression_names :=
            if truthyStrOpt gsi.sk_name ∧ ahas en "#sk" then
              match gsi.sk_name with
              | some skn => aset en "#sk" skn
              | none => en
            else en }

/-- Python truthiness of the stored limit (`if self.limit_val:`): `None` and
`0` are falsy, any other integer is truthy. -/
def truthyLimit : Option Int → Bool
  | none => false
  | some n => n ≠ 0

/-- The kwargs a query iteration hands to the paginated store protocol. -/
structure QueryKwargs where
  tableName : String
  keyConditionExpression : String
  expressionAttributeValues : List (String × Wire)
  expressionAttributeNames : List (String × String)
  scanIndexForward : Bool
  lim : Option Int
  indexName : Option String
  filterExpression : Option String

/-- `DynamoQueryBuilder.__iter__`, request-assembly half (query.py lines
291-337): key expression from placeholders, merged value/name maps, `Limit`
forwarded only when truthy, and the discriminator filter parts ANDed with the
compiled user filter (compilation delegated to `compileUser`). -/
def DynamoQueryBuilder.iterKwargs (b : DynamoQueryBuilder)
    (compileUser : DynCondition → CompiledCondition) : QueryKwargs :=
  let key_expr := "#pk = :pk" ++
    (match b.sk_condition with
     | some c => " AND " ++ c
     | none => "")
  let all_values := amerge b.expression_values b.filter_values
  let all_names := amerge b.expression_names b.filter_names
  match b.user_filter_condition with
  | none =>
      { tableName := b.config.table_name
        keyConditionExpression := key_expr
        expressionAttributeValues := all_values
        expressionAttributeNames := all_names
        scanIndexForward := b.scan_forward
        lim := if truthyLimit b.limit_val then b.limit_val else none
        indexName := b.index_name
        filterExpression :=
          if b.filter_conditions.isEmpty then none
          else some (String.intercalate " AND " b.filter_conditions) }
  | some cond =>
      let c := compileUser cond
      { tableName := b.config.table_name
        keyConditionExpression := key_expr
        expressionAttributeValues := amerge all_values c.attributeValues
        expressionAttributeNames := amerge all_names c.attributeNames
        scanIndexForward := b.scan_forward
        lim := if truthyLimit b.limit_val then b.limit_val else none
        indexName := b.index_name
        filterExpression :=
          some (String.intercalate " AND "
            (b.filter_conditions ++ [c.conditionExpression])) }

/-! ## Lazy paginated iteration (query.py lines 351-363, scan.py lines
188-200)

Both `__iter__` bodies share the same loop: for each page pulled from the
paginator, yield each deserialized item, incrementing `count`, and `return`
as soon as `self.limit_val and count >= self.limit_val`.  `iterPage` runs the
inner loop on one page (returning the yields, the updated count and whether
the generator returned); `iterPages` drives the paginator, also counting how
many pages were pulled — a mid-page `return` pulls no further page. -/

def iterPage {I M : Type} (limit_val : Option Int) (f : I → M) :
    Int → List I → List M × Int × Bool
  | count, [] => ([], count, false)
  | count, item :: rest =>
      let m := f item
      let c := count + 1
      if truthyLimit limit_val ∧ limit_val.getD 0 ≤ c then ([m], c, true)
      else
        let r := iterPage limit_val f c rest
        (m :: r.1, r.2.1, r.2.2)

def iterPages {I M : Type} (limit_val : Option Int) (f : I → M) :
    Int → List (List I) → List M × Nat
  | _, [] => ([], 0)
  | count, page :: rest =>
      let r := iterPage limit_val f count page
      if r.2.2 then (r.1, 1)
      else
        let s := iterPages limit_val f r.2.1 rest
        (r.1 ++ s.1, s.2 + 1)

/-- One full lazy iteration: items yielded and pages pulled, starting from
`count = 0`. -/
def builderIterate {I M : Type} (limit_val : Option Int) (f : I → M)
    (pages : List (List I)) : List M × Nat :=
  iterPages limit_val f 0 pages

/-- A raw page item as returned by the store. -/
abbrev WireItem := List (String × Wire)

/-- The per-item pipeline of both `__iter__` loops: deserialize the DynamoDB
JSON then resolve the concrete model type. -/
def itemPipeline (model_cls : String) (cfg : ModelOptions) (item : WireItem) :
    String × List (String × PyVal) :=
  deserialize_item model_cls cfg (from_dynamo item)

/-- `DynamoQueryBuilder.__iter__`, consumption half: lazily drive the pages
the store yields for this query. -/
def DynamoQueryBuilder.iterItems (b : DynamoQueryBuilder)
    (pages : List (List WireItem)) :
    List (String × List (String × PyVal)) × Nat :=
  builderIterate b.limit_val (itemPipeline b.model_cls b.config) pages

/-! ## Scan builder (scan.py `DynamoScanBuilder`) -/

structure DynamoScanBuilder where
  model_cls : String
  config : ModelOptions
  limit_val : Option Int
  index_name : Option String
  filter_conditions : List String
  filter_values : List (String × Wire)
  filter_names : List (String × String)
  user_filter_condition : Option DynCondition

/-- The tail of `DynamoScanBuilder.__init__` after GSI validation: initial
state plus the conditional discriminator filter. -/
def mkScanRest (model_cls : String) (cfg : ModelOptions)
    (index_name : Option String) : Except String DynamoScanBuilder :=
  let s : DynamoScanBuilder :=
    { model_cls := model_cls
      config := cfg
      limit_val := none
      index_name := index_name
      filter_conditions := []
      filter_values := []
      filter_names := []
      user_filter_condition := none }
  if truthyStrOpt cfg.discriminator_value ∧ truthyStrOpt cfg.discriminator_field then
    match cfg.discriminator_field, cfg.discriminator_value with
    | some df, some dv =>
        match to_dynamo_value (.pstr dv) with
        | .ok w => Except.ok
            { s with
              filter_conditions := s.filter_conditions ++ ["#disc = :disc_val"]
              filter_names := aset s.filter_names "#disc" df
              filter_values := aset s.filter_values ":disc_val" w }
        | .error e => Except.error e
    | _, _ => Except.ok s
  else Except.ok s

/-- `DynamoScanBuilder.__init__` (scan.py lines 33-57). -/
def mkDynamoScanBuilder (model_cls : String) (cfg : ModelOptions)
    (index_name : Option String) : Except String DynamoScanBuilder :=
  match index_name with
  | some idx =>
      if cfg.has_gsi idx then mkScanRest model_cls cfg index_name
      else Except.error
        ("GSI '" ++ idx ++ "' is not defined on model " ++ model_cls)
  | none => mkScanRest model_cls cfg index_name

/-- `DynamoScanBuilder.limit` (scan.py lines 73-76). -/
def DynamoScanBuilder.limit (s : DynamoScanBuilder) (count : Int) :
    DynamoScanBuilder :=
  { s with limit_val := some count }

/-- The kwargs a scan iteration hands to the paginated store protocol; the
name/value maps are only attached when a filter expression is. -/
structure ScanKwargs where
  tableName : String
  indexName : Option String
  lim : Option Int
  filterExpression : Option String
  expressionAttributeNames : Option (List (String × String))
  expressionAttributeValues : Option (List (String × Wire))

/-- `DynamoScanBuilder.__iter__`, request-assembly half (scan.py lines
142-175). -/
def DynamoScanBuilder.iterKwargs (s : DynamoScanBuilder)
    (compileUser : DynCondition → CompiledCondition) : ScanKwargs :=
  let base : ScanKwargs :=
    { tableName := s.config.table_name
      indexName := s.index_name
      lim := if truthyLimit s.limit_val then s.limit_val else none
      filterExpression := none
      expressionAttributeNames := none
      expressionAttributeValues := none }
  if s.filter_conditions.isEmpty ∧ s.user_filter_condition.isNone then base
  else
    match s.user_filter_condition with
    | none =>
        { base with
          filterExpression :=
            some (String.intercalate " AND " s.filter_conditions)
          expressionAttributeNames := some s.filter_names
          expressionAttributeValues := some s.filter_values }
    | some cond =>
        let c := compileUser cond
        { base with
          filterExpression :=
            some (String.intercalate " AND "
              (s.filter_conditions ++ [c.conditionExpression]))
          expressionAttributeNames := some (amerge s.filter_names c.attributeNames)
          expressionAttributeValues := some (amerge s.filter_values c.attributeValues) }

/-- `DynamoScanBuilder.__iter__`, consumption half. -/
def DynamoScanBuilder.iterItems (s : DynamoScanBuilder)
    (pages : List (List WireItem)) :
    List (String × List (String × PyVal)) × Nat :=
  builderIterate s.limit_val (itemPipeline s.model_cls s.config) pages

/-! ## Iteration lemmas and claim theorems C2, C10 -/

/-- The number of pages a limit-`n` traversal must pull: the first page that
brings the cumulative item count to `n` is the last one requested; if the
store runs out first, every page is pulled. -/
def pagesNeeded {I : Type} (n : Int) : List (List I) → Nat
  | [] => 0
  | p :: ps => if n ≤ (p.length : Int) then 1 else pagesNeeded (n - p.length) ps + 1

/-- With a falsy limit the inner loop never returns early. -/
theorem iterPage_noLimit {I M : Type} (l : Option Int) (f : I → M)
    (hl : truthyLimit l = false) :
    ∀ (count : Int) (items : List I),
      iterPage l f count items = (items.map f, count + items.length, false) := by
  intro count items
  induction items generalizing count with
  | nil => simp [iterPage]
  | cons item rest ih =>
      rw [iterPage]
      rw [if_neg (by simp [hl])]
      simp [ih (count + 1)]
      omega

/-- With a falsy limit every page is pulled and every item yielded. -/
theorem iterPages_noLimit {I M : Type} (l : Option Int) (f : I → M)
    (hl : truthyLimit l = false) :
    ∀ (count : Int) (pages : List (List I)),
      iterPages l f count pages = ((pages.flatten).map f, pages.length) := by
  intro count pages
  induction pages generalizing count with
  | nil => simp [iterPages]
  | cons page rest ih =>
      rw [iterPages, iterPage_noLimit l f hl]
      simp [ih]

/-- Inner-loop behaviour under a positive limit: either the page is exhausted
below the limit, or the loop yields exactly the items needed to reach `n` and
returns mid-page. -/
theorem iterPage_spec {I M : Type} (n : Int) (f : I → M) :
    ∀ (count : Int) (items : List I), 0 ≤ count → count < n →
      iterPage (some n) f count items =
        if (count + items.length : Int) < n
        then (items.map f, count + items.length, false)
        else ((items.take (n - count).toNat).map f, n, true) := by
  intro count items
  induction items generalizing count with
  | nil =>
      intro h0 hlt
      rw [if_pos (by simpa using hlt)]
      simp [iterPage]
  | cons item rest ih =>
      intro h0 hlt
      rw [iterPage]
      have hne : truthyLimit (some n) = true := by
        simp [truthyLimit]
        omega
      by_cases hstop : n ≤ count + 1
      · have hn1 : n = count + 1 := by omega
        rw [if_pos (by constructor <;> simp [hne, Option.getD] <;> omega)]
        rw [if_neg (by simp; omega)]
        have : (n - count).toNat = 1 := by omega
        simp [this, hn1]
      · rw [if_neg (by simp [hne, Option.getD]; omega)]
        rw [ih (count + 1) (by omega) (by omega)]
        by_cases hfit : count + 1 + rest.length < n
        · rw [if_pos hfit, if_pos (by simp; omega)]
          simp
          omega
        · rw [if_neg hfit, if_neg (by simp; omega)]
          have htn : (n - count).toNat = (n - (count + 1)).toNat + 1 := by omega
          simp [htn]

/-- Outer-loop behaviour under a positive limit: the traversal yields the
first `n - count` items of the concatenated pages and pulls exactly the pages
needed. -/
theorem iterPages_spec {I M : Type} (n : Int) (f : I → M) :
    ∀ (count : Int) (pages : List (List I)), 0 ≤ count → count < n →
      iterPages (some n) f count pages =
        (((pages.flatten).take (n - count).toNat).map f,
          pagesNeeded (n - count) pages) := by
  intro count pages
  induction pages generalizing count with
  | nil =>
      intro h0 hlt
      simp [iterPages, pagesNeeded]
  | cons page rest ih =>
      intro h0 hlt
      rw [iterPages, iterPage_spec n f count page h0 hlt]
      by_cases hfit : count + page.length < n
      · rw [if_pos hfit]
        simp only
        rw [ih (count + page.length) (by omega) (by omega)]
        have hpn : pagesNeeded (n - count) (page :: rest) =
            pagesNeeded (n - (count + page.length)) rest + 1 := by
          rw [pagesNeeded,
            if_neg (show ¬(n - count ≤ (page.length : Int)) by omega),
            show (n - count - (page.length : Int)) = n - (count + page.length)
              from by omega]
        have hjoin : ((page ++ rest.flatten).take (n - count).toNat) =
            page ++ (rest.flatten).take ((n - count).toNat - page.length) := by
          rw [List.take_append_eq_append_take]
          congr 1
          exact List.take_of_length_le (by omega)
        have harith : ((n - count).toNat - page.length : ℕ) =
            (n - (count + page.length)).toNat := by omega
        simp [List.flatten_cons, hjoin, harith, hpn]
      · rw [if_neg hfit]
        simp only
        have hpn : pagesNeeded (n - count) (page :: rest) = 1 := by
          rw [pagesNeeded, if_pos (show n - count ≤ (page.length : Int) by omega)]
        have hjoin : ((page ++ rest.flatten).take (n - count).toNat) =
            page.take (n - count).toNat :=
          List.take_append_of_le_length (by omega)
        simp [List.flatten_cons, hjoin, hpn]

/-- C2 (confirmed).  For a query or scan builder whose limit is `n ≥ 1`, lazy
iteration yields exactly the first `n` available items of the paginated
traversal (hence at most `n`), stopping even mid-page, and pulls exactly the
pages needed to reach the `n`-th item — no page request is issued after
that. -/
theorem limit_truncates_iteration (b : DynamoQueryBuilder)
    (s : DynamoScanBuilder) (n : Int) (hn : 1 ≤ n)
    (hb : b.limit_val = some n) (hs : s.limit_val = some n)
    (pages : List (List WireItem)) :
    ((b.iterItems pages).1.length ≤ n.toNat ∧
      (b.iterItems pages).1 =
        ((pages.flatten).take n.toNat).map (itemPipeline b.model_cls b.config) ∧
      (b.iterItems pages).2 = pagesNeeded n pages) ∧
    ((s.iterItems pages).1.length ≤ n.toNat ∧
      (s.iterItems pages).1 =
        ((pages.flatten).take n.toNat).map (itemPipeline s.model_cls s.config) ∧
      (s.iterItems pages).2 = pagesNeeded n pages) := by
  have hq := iterPages_spec n (itemPipeline b.model_cls b.config) 0 pages
    (le_refl 0) (by omega)
  have hsc := iterPages_spec n (itemPipeline s.model_cls s.config) 0 pages
    (le_refl 0) (by omega)
  rw [Int.sub_zero] at hq hsc
  constructor
  · rw [DynamoQueryBuilder.iterItems, builderIterate, hb, hq]
    refine ⟨?_, rfl, rfl⟩
    calc (((pages.flatten).take n.toNat).map
            (itemPipeline b.model_cls b.config)).length
        = ((pages.flatten).take n.toNat).length := List.length_map _ _
      _ ≤ n.toNat := List.length_take_le _ _
  · rw [DynamoScanBuilder.iterItems, builderIterate, hs, hsc]
    refine ⟨?_, rfl, rfl⟩
    calc (((pages.flatten).take n.toNat).map
            (itemPipeline s.model_cls s.config)).length
        = ((pages.flatten).take n.toNat).length := List.length_map _ _
      _ ≤ n.toNat := List.length_take_le _ _

/-- A concrete query builder with limit 3, for the C2 witness. -/
def c2QueryBuilder : DynamoQueryBuilder :=
  { model_cls := "Movie", config := { table_name := "t", pk_name := "pk" },
    pk_val := .pstr "p", sk_condition := none, limit_val := some 3,
    scan_forward := true, index_name := none, filter_conditions := [],
    filter_values := [], filter_names := [], user_filter_condition := none,
    pk_name := "pk", sk_name := none,
    expression_values := [(":pk", .S "p")],
    expression_names := [("#pk", "pk")] }

/-- A concrete scan builder with limit 3, for the C2 witness. -/
def c2ScanBuilder : DynamoScanBuilder :=
  { model_cls := "Movie", config := { table_name := "t", pk_name := "pk" },
    limit_val := some 3, index_name := none, filter_conditions := [],
    filter_values := [], filter_names := [], user_filter_condition := none }

/-- Three two-item pages, for the C2 witness. -/
def c2Pages : List (List WireItem) :=
  [[[("pk", .S "p")], [("pk", .S "q")]],
   [[("pk", .S "r")], [("pk", .S "s")]],
   [[("pk", .S "u")], [("pk", .S "v")]]]

/-- Witness for C2: limit 3 over three two-item pages yields at most 3 items
and pulls exactly the 2 pages needed. -/
theorem limit_truncates_iteration_witness :
    (c2QueryBuilder.iterItems c2Pages).1.length ≤ (3 : Int).toNat ∧
    (c2QueryBuilder.iterItems c2Pages).2 = pagesNeeded 3 c2Pages ∧
    (c2ScanBuilder.iterItems c2Pages).1.length ≤ (3 : Int).toNat :=
  ⟨(limit_truncates_iteration c2QueryBuilder c2ScanBuilder 3 (by omega)
      rfl rfl c2Pages).1.1,
   (limit_truncates_iteration c2QueryBuilder c2ScanBuilder 3 (by omega)
      rfl rfl c2Pages).1.2.2,
   (limit_truncates_iteration c2QueryBuilder c2ScanBuilder 3 (by omega)
      rfl rfl c2Pages).2.1⟩

/-- C10 (confirmed).  `limit(0)` behaves as if no limit were set: the stored
limit is tested for truthiness, so no `Limit` page-size hint is forwarded to
the store and iteration yields every item of every page, exactly as with no
limit configured. -/
theorem limit_zero_means_unlimited (b : DynamoQueryBuilder)
    (s : DynamoScanBuilder) (compileUser : DynCondition → CompiledCondition)
    (pages : List (List WireItem)) :
    ((b.limit 0).iterKwargs compileUser).lim = none ∧
    (b.limit 0).iterItems pages = { b with limit_val := none }.iterItems pages ∧
    ((b.limit 0).iterItems pages).1 =
      (pages.flatten).map (itemPipeline b.model_cls b.config) ∧
    ((s.limit 0).iterKwargs compileUser).lim = none ∧
    (s.limit 0).iterItems pages = { s with limit_val := none }.iterItems pages ∧
    ((s.limit 0).iterItems pages).1 =
      (pages.flatten).map (itemPipeline s.model_cls s.config) := by
  have h0 : truthyLimit (some 0) = false := by simp [truthyLimit]
  have hn : truthyLimit none = false := rfl
  refine ⟨?_, ?_, ?_, ?_, ?_, ?_⟩
  · rw [DynamoQueryBuilder.iterKwargs]
    cases (b.limit 0).user_filter_condition <;> simp [DynamoQueryBuilder.limit, h0]
  · rw [DynamoQueryBuilder.iterItems, DynamoQueryBuilder.iterItems, builderIterate,
      builderIterate]
    simp only [DynamoQueryBuilder.limit]
    rw [iterPages_noLimit _ _ h0, iterPages_noLimit _ _ hn]
  · rw [DynamoQueryBuilder.iterItems, builderIterate]
    simp only [DynamoQueryBuilder.limit]
    rw [iterPages_noLimit _ _ h0]
  · rw [DynamoScanBuilder.iterKwargs]
    simp only [DynamoScanBuilder.limit, h0]
    split
    · rfl
    · split <;> rfl
  · rw [DynamoScanBuilder.iterItems, DynamoScanBuilder.iterItems, builderIterate,
      builderIterate]
    simp only [DynamoScanBuilder.limit]
    rw [iterPages_noLimit _ _ h0, iterPages_noLimit _ _ hn]
  · rw [DynamoScanBuilder.iterItems, builderIterate]
    simp only [DynamoScanBuilder.limit]
    rw [iterPages_noLimit _ _ h0]

/-! ## Claim theorem: `using_index` re-seeding (C8) -/

/-- Updating a key then looking it up yields the new value. -/
theorem alookup_aset_self {α : Type} (d : List (String × α)) (k : String)
    (v : α) : alookup (aset d k v) k = some v := by
  induction d with
  | nil => simp [aset, alookup]
  | cons kv rest ih =>
      obtain ⟨k0, v0⟩ := kv
      by_cases h : k0 = k
      · simp [aset, alookup, h]
      · simp [aset, alookup, h, ih]

/-- Updating one key leaves every other key's binding unchanged. -/
theorem alookup_aset_ne {α : Type} (d : List (String × α)) (k k' : String)
    (v : α) (h : k' ≠ k) : alookup (aset d k v) k' = alookup d k' := by
  induction d with
  | nil =>
      simp only [aset, alookup]
      rw [if_neg fun hh => h hh.symm]
  | cons kv rest ih =>
      obtain ⟨k0, v0⟩ := kv
      simp only [aset]
      by_cases h0 : k0 = k
      · rw [if_pos h0]
        simp only [alookup]
        have hne : ¬(k0 = k') := fun hh => h (hh.symm.trans h0)
        rw [if_neg hne, if_neg hne]
      · rw [if_neg h0]
        simp only [alookup]
        by_cases h1 : k0 = k'
        · rw [if_pos h1, if_pos h1]
        · rw [if_neg h1, if_neg h1]
          exact ih

/-- C8 (confirmed).  `using_index(name)` on a defined GSI re-resolves the key
field names and re-seeds the `"#pk"` name placeholder to the new index's
partition-key field (updating the `"#sk"` name placeholder as well when one
was seeded and the index has a sort key); the value map — in particular the
`":pk"` placeholder holding the value serialized at construction — and every
other piece of builder state are left unchanged. -/
theorem using_index_reseeds_only_key_names (b : DynamoQueryBuilder)
    (index_name : String) (gsi : GSIDefinition)
    (hgsi : b.config.get_gsi index_name = some gsi) :
    ∃ b', b.using_index index_name = Except.ok b' ∧
      b'.index_name = some index_name ∧
      b'.pk_name = gsi.pk_name ∧
      b'.sk_name = gsi.sk_name ∧
      alookup b'.expression_names "#pk" = some gsi.pk_name ∧
      b'.expression_values = b.expression_values ∧
      alookup b'.expression_values ":pk" = alookup b.expression_values ":pk" ∧
      (∀ ph, ph ≠ "#pk" → ph ≠ "#sk" →
        alookup b'.expression_names ph = alookup b.expression_names ph) ∧
      b'.model_cls = b.model_cls ∧ b'.config = b.config ∧
      b'.pk_val = b.pk_val ∧ b'.sk_condition = b.sk_condition ∧
      b'.limit_val = b.limit_val ∧ b'.scan_forward = b.scan_forward ∧
      b'.filter_conditions = b.filter_conditions ∧
      b'.filter_values = b.filter_values ∧
      b'.filter_names = b.filter_names ∧
      b'.user_filter_condition = b.user_filter_condition := by
  rw [DynamoQueryBuilder.using_index, hgsi]
  refine ⟨_, rfl, rfl, rfl, rfl, ?_, rfl, rfl, ?_, rfl, rfl, rfl, rfl, rfl,
    rfl, rfl, rfl, rfl, rfl⟩
  · show alookup
        (if truthyStrOpt gsi.sk_name ∧ ahas (aset b.expression_names "#pk" gsi.pk_name) "#sk"
         then _ else _) "#pk" = some gsi.pk_name
    split
    · cases hsk : gsi.sk_name with
      | none => exact alookup_aset_self _ _ _
      | some skn =>
          rw [alookup_aset_ne _ _ _ _ (by simp), alookup_aset_self]
    · exact alookup_aset_self _ _ _
  · intro ph hpk hsk
    show alookup
        (if truthyStrOpt gsi.sk_name ∧ ahas (aset b.expression_names "#pk" gsi.pk_name) "#sk"
         then _ else _) ph = _
    split
    · cases hskn : gsi.sk_name with
      | none => exact alookup_aset_ne _ _ _ _ hpk
      | some skn =>
          rw [alookup_aset_ne _ _ _ _ hsk, alookup_aset_ne _ _ _ _ hpk]
    · exact alookup_aset_ne _ _ _ _ hpk

/-- The GSI used by the C8 witness. -/
def c8GSI : GSIDefinition :=
  { index_name := "by-city", pk_name := "city", sk_name := some "signup" }

/-- A builder on the main table whose model also defines a GSI, for the C8
witness. -/
def c8Builder : DynamoQueryBuilder :=
  { model_cls := "User",
    config :=
      { table_name := "t", pk_name := "email",
        gsi_definitions := [("by-city", c8GSI)] },
    pk_val := .pstr "a@b.c", sk_condition := none, limit_val := none,
    scan_forward := true, index_name := none, filter_conditions := [],
    filter_values := [], filter_names := [], user_filter_condition := none,
    pk_name := "email", sk_name := none,
    expression_values := [(":pk", .S "a@b.c")],
    expression_names := [("#pk", "email")] }

/-- Witness for C8: switching `c8Builder` to the `by-city` GSI re-points
`"#pk"` at `city` while `":pk"` still holds the serialized construction-time
value. -/
theorem using_index_reseeds_only_key_names_witness :
    ∃ b', c8Builder.using_index "by-city" = Except.ok b' ∧
      b'.index_name = some "by-city" ∧
      b'.pk_name = "city" ∧
      b'.sk_name = some "signup" ∧
      alookup b'.expression_names "#pk" = some "city" ∧
      b'.expression_values = c8Builder.expression_values ∧
      alookup b'.expression_values ":pk" =
        alookup c8Builder.expression_values ":pk" ∧
      (∀ ph, ph ≠ "#pk" → ph ≠ "#sk" →
        alookup b'.expression_names ph = alookup c8Builder.expression_names ph) ∧
      b'.model_cls = c8Builder.model_cls ∧ b'.config = c8Builder.config ∧
      b'.pk_val = c8Builder.pk_val ∧ b'.sk_condition = c8Builder.sk_condition ∧
      b'.limit_val = c8Builder.limit_val ∧
      b'.scan_forward = c8Builder.scan_forward ∧
      b'.filter_conditions = c8Builder.filter_conditions ∧
      b'.filter_values = c8Builder.filter_values ∧
      b'.filter_names = c8Builder.filter_names ∧
      b'.user_filter_condition = c8Builder.user_filter_condition :=
  using_index_reseeds_only_key_names c8Builder "by-city" c8GSI (by decide)

/-! ## Claim theorem: discriminator isolation (C3) -/

/-- Modelled from the spec: the external store's server-side application of a
query's `FilterExpression` (spec §4.4/§6: "filtering happens server-side").
Only the single-equality fragment `"<namePH> = <valuePH>"` — the exact shape
the internal discriminator filter emits — is modelled: an item passes when
the attribute named by the name-placeholder's binding equals the
value-placeholder's binding.  Expressions outside this fragment pass no
item through (the claims only instantiate the modelled shape). -/
def eqFilterSem (expr : String) (names : List (String × String))
    (values : List (String × Wire)) (item : WireItem) : Bool :=
  names.any fun np => values.any fun vp =>
    expr = np.1 ++ " = " ++ vp.1 &&
      (match alookup item np.2 with
       | some iv => wireEq iv vp.2
       | none => false)

/-- Modelled from the spec: a store page after server-side filtering; no
filter expression means every item of the page is returned. -/
def serverFilterPage (kw : QueryKwargs) (page : List WireItem) : List WireItem :=
  match kw.filterExpression with
  | none => page
  | some expr =>
      page.filter
        (eqFilterSem expr kw.expressionAttributeNames kw.expressionAttributeValues)

/-- End-to-end query pipeline: the store filters each raw page server-side
with the builder's compiled kwargs, then the lazy iteration deserializes and
polymorphically resolves each surviving item. -/
def DynamoQueryBuilder.runQuery (b : DynamoQueryBuilder)
    (compileUser : DynCondition → CompiledCondition)
    (pages : List (List WireItem)) :
    List (String × List (String × PyVal)) × Nat :=
  b.iterItems (pages.map (serverFilterPage (b.iterKwargs compileUser)))

/-- Every item yielded by the inner loop comes from the page. -/
theorem iterPage_yields {I M : Type} (l : Option Int) (f : I → M) :
    ∀ (count : Int) (items : List I) (m : M),
      m ∈ (iterPage l f count items).1 → ∃ i ∈ items, m = f i := by
  intro count items
  induction items generalizing count with
  | nil => intro m hm; simp [iterPage] at hm
  | cons item rest ih =>
      intro m hm
      rw [iterPage] at hm
      split at hm
      · rcases List.mem_singleton.mp hm with rfl
        exact ⟨item, List.Mem.head _, rfl⟩
      · rcases List.mem_cons.mp hm with rfl | hm'
        · exact ⟨item, List.Mem.head _, rfl⟩
        · obtain ⟨i, hi, rfl⟩ := ih (count + 1) m hm'
          exact ⟨i, List.mem_cons_of_mem _ hi, rfl⟩

/-- Every item yielded by the traversal comes from some page. -/
theorem iterPages_yields {I M : Type} (l : Option Int) (f : I → M) :
    ∀ (count : Int) (pages : List (List I)) (m : M),
      m ∈ (iterPages l f count pages).1 →
        ∃ page ∈ pages, ∃ i ∈ page, m = f i := by
  intro count pages
  induction pages generalizing count with
  | nil => intro m hm; simp [iterPages] at hm
  | cons page rest ih =>
      intro m hm
      rw [iterPages] at hm
      split at hm
      · obtain ⟨i, hi, rfl⟩ := iterPage_yields l f count page m hm
        exact ⟨page, List.Mem.head _, i, hi, rfl⟩
      · rcases List.mem_append.mp hm with hm' | hm'
        · obtain ⟨i, hi, rfl⟩ := iterPage_yields l f count page m hm'
          exact ⟨page, List.Mem.head _, i, hi, rfl⟩
        · obtain ⟨p, hp, i, hi, rfl⟩ := ih _ m hm'
          exact ⟨p, List.mem_cons_of_mem _ hp, i, hi, rfl⟩

/-- A non-base schema (a registered subtype) always instantiates the invoking
class directly. -/
theorem deserialize_item_not_base (cls : String) (cfg : ModelOptions)
    (raw : List (String × PyVal)) (h : cfg.is_base_entity = false) :
    deserialize_item cls cfg raw = (cls, raw) := by
  unfold deserialize_item
  rw [if_neg]
  intro hc
  rw [h] at hc
  exact absurd hc.1 (by simp)

/-- A wire value that equals a string wire value is that string wire value. -/
theorem wireEq_S {iv : Wire} {s : String} (h : wireEq iv (.S s) = true) :
    iv = .S s := by
  cases iv <;> simp [wireEq] at h ⊢
  exact h

/-- The discriminator filter semantics: under the kwargs the subtype builder
assembles, an item passes iff its discriminator attribute equals the
serialized discriminator value. -/
theorem eqFilterSem_disc (pkn df : String) (w : Wire) (dv : String)
    (it : WireItem) :
    eqFilterSem "#disc = :disc_val" [("#pk", pkn), ("#disc", df)]
      [(":pk", w), (":disc_val", .S dv)] it = true →
    alookup it df = some (.S dv) := by
  intro h
  unfold eqFilterSem at h
  simp only [List.any_cons, List.any_nil, Bool.or_false, Bool.or_eq_true,
    Bool.and_eq_true, decide_eq_true_eq] at h
  rcases h with (⟨hex, -⟩ | ⟨hex, -⟩) | (⟨hex, -⟩ | ⟨hex, hm⟩)
  · exact absurd hex (by decide)
  · exact absurd hex (by decide)
  · exact absurd hex (by decide)
  · revert hm
    cases hit : alookup it df with
    | none => intro hm; cases hm
    | some iv =>
        intro hm
        have hiv : wireEq iv (.S dv) = true := hm
        rw [wireEq_S hiv]

/-- `restoreKVs` rewrites each value in place. -/
theorem restoreKVs_eq_map (kvs : List (String × PyVal)) :
    restoreKVs kvs = kvs.map fun kv => (kv.1, restore_to_python kv.2) := by
  induction kvs with
  | nil => rfl
  | cons kv rest ih =>
      obtain ⟨k, v⟩ := kv
      simp [restoreKVs, ih]

/-- Lookup commutes with mapping over values. -/
theorem alookup_mapval {α β : Type} (g : α → β) (l : List (String × α))
    (k : String) :
    alookup (l.map fun kv => (kv.1, g kv.2)) k = (alookup l k).map g := by
  induction l with
  | nil => rfl
  | cons kv rest ih =>
      obtain ⟨k0, v0⟩ := kv
      by_cases h : k0 = k <;> simp [alookup, h, ih]

/-- Field lookup after `from_dynamo`: each attribute is deserialized then
restored in place. -/
theorem alookup_from_dynamo (item : WireItem) (k : String) :
    alookup (from_dynamo item) k =
      (alookup item k).map fun w => restore_to_python (b3deserialize w) := by
  rw [from_dynamo, restoreKVs_eq_map, List.map_map]
  rw [show ((fun kv => (kv.1, restore_to_python kv.2)) ∘
      (fun kw : String × Wire => (kw.1, b3deserialize kw.2))) =
    fun kw : String × Wire => (kw.1, restore_to_python (b3deserialize kw.2))
    from rfl]
  exact alookup_mapval (fun w => restore_to_python (b3deserialize w)) item k

/-- Inverting the builder constructor tail on a registered subtype: the
result is the seeded builder with the discriminator filter appended. -/
theorem mkQueryRest_subtype (A : String) (cfg : ModelOptions) (pk_val : PyVal)
    (index_name : Option String) (pkn : String) (skn : Option String)
    (b : DynamoQueryBuilder) (df dv : String)
    (hdf : cfg.discriminator_field = some df) (hdf' : df ≠ "")
    (hdv : cfg.discriminator_value = some dv) (hdv' : dv ≠ "")
    (hmk : mkQueryRest A cfg pk_val index_name pkn skn = Except.ok b) :
    ∃ w, to_dynamo_value pk_val = Except.ok w ∧
      b = add_discriminator_filter
        { model_cls := A, config := cfg, pk_val := pk_val,
          sk_condition := none, limit_val := none, scan_forward := true,
          index_name := index_name, filter_conditions := [],
          filter_values := [], filter_names := [],
          user_filter_condition := none, pk_name := pkn, sk_name := skn,
          expression_values := [(":pk", w)],
          expression_names := [("#pk", pkn)] } df (.S dv) := by
  unfold mkQueryRest at hmk
  cases hw : to_dynamo_value pk_val with
  | error e => rw [hw] at hmk; cases hmk
  | ok w =>
      rw [hw] at hmk
      simp only at hmk
      rw [if_pos ⟨by rw [hdv]; simpa [truthyStrOpt] using hdv',
        by rw [hdf]; simpa [truthyStrOpt] using hdf'⟩] at hmk
      rw [hdf, hdv] at hmk
      simp only at hmk
      rw [show to_dynamo_value (.pstr dv) = Except.ok (.S dv) from rfl] at hmk
      exact ⟨w, rfl, (Except.ok.inj hmk).symm⟩

/-- C3 (confirmed).  A query built on a registered subtype (truthy
discriminator field `df` and value `dv`, `is_base_entity = false`) always
carries the internal server-side filter `discriminatorField ==
discriminatorValue`: construction appends `"#disc = :disc_val"` with `"#disc"
↦ df` and `":disc_val" ↦ serialized dv`; every item surviving the store's
filter has discriminator attribute equal to `dv` (so no sibling-typed stored
item is returned at all); and every yielded instance's concrete class is the
invoking subtype — never a sibling subtype `B ≠ A`. -/
theorem subtype_query_discriminator_isolation (A : String) (cfg : ModelOptions)
    (pk_val : PyVal) (index_name : Option String) (b : DynamoQueryBuilder)
    (df dv : String)
    (hdf : cfg.discriminator_field = some df) (hdf' : df ≠ "")
    (hdv : cfg.discriminator_value = some dv) (hdv' : dv ≠ "")
    (hbase : cfg.is_base_entity = false)
    (hmk : mkDynamoQueryBuilder A cfg pk_val index_name = Except.ok b)
    (compileUser : DynCondition → CompiledCondition)
    (pages : List (List WireItem)) :
    b.filter_conditions = ["#disc = :disc_val"] ∧
    alookup b.filter_names "#disc" = some df ∧
    alookup b.filter_values ":disc_val" = some (.S dv) ∧
    (∀ page it, it ∈ serverFilterPage (b.iterKwargs compileUser) page →
      alookup it df = some (.S dv)) ∧
    (∀ inst ∈ (b.runQuery compileUser pages).1,
      inst.1 = A ∧ alookup inst.2 df = some (.pstr dv)) ∧
    (∀ B, B ≠ A → ∀ inst ∈ (b.runQuery compileUser pages).1, inst.1 ≠ B) := by
  have hrest : ∃ pkn skn, mkQueryRest A cfg pk_val index_name pkn skn =
      Except.ok b := by
    cases index_name with
    | none =>
        unfold mkDynamoQueryBuilder at hmk
        exact ⟨cfg.pk_name, cfg.sk_name, hmk⟩
    | some idx =>
        unfold mkDynamoQueryBuilder at hmk
        cases hg : cfg.get_gsi idx with
        | none =>
            simp only [hg] at hmk
            cases hmk
        | some gsi =>
            simp only [hg] at hmk
            exact ⟨gsi.pk_name, gsi.sk_name, hmk⟩
  obtain ⟨pkn, skn, hmk'⟩ := hrest
  obtain ⟨w, hw, rfl⟩ := mkQueryRest_subtype A cfg pk_val index_name pkn skn
    b df dv hdf hdf' hdv hdv' hmk'
  have hkw : (add_discriminator_filter
      { model_cls := A, config := cfg, pk_val := pk_val, sk_condition := none,
        limit_val := none, scan_forward := true, index_name := index_name,
        filter_conditions := [], filter_values := [], filter_names := [],
        user_filter_condition := none, pk_name := pkn, sk_name := skn,
        expression_values := [(":pk", w)], expression_names := [("#pk", pkn)] }
      df (.S dv)).iterKwargs compileUser =
      { tableName := cfg.table_name
        keyConditionExpression := "#pk = :pk"
        expressionAttributeValues := [(":pk", w), (":disc_val", .S dv)]
        expressionAttributeNames := [("#pk", pkn), ("#disc", df)]
        scanIndexForward := true
        lim := none
        indexName := index_name
        filterExpression := some "#disc = :disc_val" } := rfl
  have hfilter : ∀ page it,
      it ∈ serverFilterPage ((add_discriminator_filter
        { model_cls := A, config := cfg, pk_val := pk_val,
          sk_condition := none, limit_val := none, scan_forward := true,
          index_name := index_name, filter_conditions := [],
          filter_values := [], filter_names := [],
          user_filter_condition := none, pk_name := pkn, sk_name := skn,
          expression_values := [(":pk", w)],
          expression_names := [("#pk", pkn)] }
        df (.S dv)).iterKwargs compileUser) page →
      alookup it df = some (.S dv) := by
    intro page it hit
    rw [hkw] at hit
    rw [serverFilterPage] at hit
    simp only at hit
    exact eqFilterSem_disc pkn df w dv it (List.mem_filter.mp hit).2
  have hyield : ∀ inst ∈ ((add_discriminator_filter
      { model_cls := A, config := cfg, pk_val := pk_val, sk_condition := none,
        limit_val := none, scan_forward := true, index_name := index_name,
        filter_conditions := [], filter_values := [], filter_names := [],
        user_filter_condition := none, pk_name := pkn, sk_name := skn,
        expression_values := [(":pk", w)], expression_names := [("#pk", pkn)] }
      df (.S dv)).runQuery compileUser pages).1,
      inst.1 = A ∧ alookup inst.2 df = some (.pstr dv) := by
    intro inst hinst
    rw [DynamoQueryBuilder.runQuery, DynamoQueryBuilder.iterItems,
      builderIterate] at hinst
    obtain ⟨page', hpage', it, hit, rfl⟩ := iterPages_yields _ _ 0 _ _ hinst
    obtain ⟨page, -, rfl⟩ := List.mem_map.mp hpage'
    have hdisc := hfilter page it hit
    constructor
    · show (deserialize_item A cfg (from_dynamo it)).1 = A
      rw [deserialize_item_not_base A cfg _ hbase]
    · show alookup (deserialize_item A cfg (from_dynamo it)).2 df =
        some (.pstr dv)
      rw [deserialize_item_not_base A cfg _ hbase]
      show alookup (from_dynamo it) df = some (.pstr dv)
      rw [alookup_from_dynamo, hdisc]
      rfl
  refine ⟨rfl, rfl, rfl, hfilter, hyield, ?_⟩
  intro B hB inst hinst
  rw [(hyield inst hinst).1]
  exact fun h => hB h.symm

/-- A registered-subtype configuration (`A` among siblings `A`, `B`), for the
C3 witness. -/
def c3Config : ModelOptions :=
  { table_name := "t", pk_name := "pk",
    discriminator_field := some "type", discriminator_value := some "A",
    entity_registry := [("A", "AClass"), ("B", "BClass")],
    is_base_entity := false, parent_model := some "BaseClass" }

/-- The builder `A.query(pk)` constructs on `c3Config`. -/
def c3Builder : DynamoQueryBuilder :=
  { model_cls := "AClass", config := c3Config, pk_val := .pstr "p",
    sk_condition := none, limit_val := none, scan_forward := true,
    index_name := none, filter_conditions := ["#disc = :disc_val"],
    filter_values := [(":disc_val", .S "A")],
    filter_names := [("#disc", "type")], user_filter_condition := none,
    pk_name := "pk", sk_name := none,
    expression_values := [(":pk", .S "p")],
    expression_names := [("#pk", "pk")] }

/-- Witness for C3: constructing `A.query("p")` on the registered subtype
configuration produces exactly the silently-appended discriminator filter. -/
theorem subtype_query_discriminator_isolation_witness :
    mkDynamoQueryBuilder "AClass" c3Config (.pstr "p") none =
      Except.ok c3Builder ∧
    c3Builder.filter_conditions = ["#disc = :disc_val"] ∧
    alookup c3Builder.filter_names "#disc" = some "type" ∧
    alookup c3Builder.filter_values ":disc_val" = some (.S "A") :=
  let h := subtype_query_discriminator_isolation "AClass" c3Config
    (.pstr "p") none c3Builder "type" "A" rfl (by decide) rfl (by decide)
    rfl rfl (fun _ => { conditionExpression := "" }) []
  ⟨rfl, h.1, h.2.1, h.2.2.1⟩

/-! ## Update compiler (updates.py)

The declarative validation layer (pydantic `TypeAdapter`) is an external
collaborator: a declared field carries an opaque coercion function `coerce`
standing for `TypeAdapter(field.annotation).validate_python`, which either
returns the coerced value or fails. -/

structure FieldInfo where
  field_alias : Option String
  coerce : PyVal → Except String PyVal

/-- `UpdateAction._get_field_info` (updates.py lines 46-56): the first
declared field whose wire name (`field.alias or field_name`) matches. -/
def get_field_info : List (String × FieldInfo) → String → Option FieldInfo
  | [], _ => none
  | (fname, fi) :: rest, field_name =>
      let dynamo_name :=
        match fi.field_alias with
        | some a => if a = "" then fname else a
        | none => fname
      if dynamo_name = field_name then some fi
      else get_field_info rest field_name

/-- The four update actions (updates.py `Set`/`Remove`/`Add`/`Delete`). -/
inductive UpdateAction : Type where
  | set (field_name : String) (value : PyVal)
  | remove (field_name : String)
  | add (field_name : String) (value : PyVal)
  | delete (field_name : String) (value : PyVal)

/-- `isinstance(validated_value, (int, float, Decimal))`; Python `bool` is an
`int` subclass and therefore counts as a number. -/
def isNumberPy : PyVal → Bool
  | .pint _ => true
  | .pfloat _ => true
  | .pdec _ => true
  | .pbool _ => true
  | _ => false

/-- `isinstance(validated_value, (set, frozenset))`. -/
def isSetPy : PyVal → Bool
  | .pset _ => true
  | _ => false

/-- `type(v).__name__`, for the ADD error message. -/
def pyTypeName : PyVal → String
  | .pnone => "NoneType"
  | .pbool _ => "bool"
  | .pint _ => "int"
  | .pfloat _ => "float"
  | .pdec _ => "Decimal"
  | .pstr _ => "str"
  | .pbytes _ => "bytes"
  | .pset _ => "set"
  | .plist _ => "list"
  | .pmap _ => "dict"

/-- `Set.validate` (updates.py lines 65-80). -/
def validateSet (mf : List (String × FieldInfo)) (field_name : String)
    (value : PyVal) : Except String PyVal :=
  match value with
  | .pnone => .ok .pnone
  | v =>
      match get_field_info mf field_name with
      | some fi =>
          (match fi.coerce v with
           | .ok cv => .ok cv
           | .error e =>
               .error ("Validation failed for field '" ++ field_name ++ "': " ++ e))
      | none => .ok v

/-- `Add.validate` (updates.py lines 103-137): generic coercion first, then
the strict number-or-set check; with no declared field, a best-effort check
on the raw value. -/
def validateAdd (mf : List (String × FieldInfo)) (field_name : String)
    (value : PyVal) : Except String PyVal :=
  match get_field_info mf field_name with
  | some fi =>
      (match fi.coerce value with
       | .error e =>
           .error ("Validation failed for field '" ++ field_name ++ "': " ++ e)
       | .ok validated =>
           if isNumberPy validated || isSetPy validated then .ok validated
           else .error ("Invalid type for ADD operation on field '" ++
             field_name ++ "'. DynamoDB ADD supports only Numbers and Sets. " ++
             "Got: " ++ pyTypeName validated))
  | none =>
      if isNumberPy value || isSetPy value then .ok value
      else .error ("Invalid value for ADD operation. " ++
        "DynamoDB ADD supports only Numbers and Sets. " ++
        "Got: " ++ pyTypeName value)

/-- `Delete.validate` (updates.py lines 146-155). -/
def validateDelete (mf : List (String × FieldInfo)) (field_name : String)
    (value : PyVal) : Except String PyVal :=
  match get_field_info mf field_name with
  | some fi =>
      (match fi.coerce value with
       | .ok cv => .ok cv
       | .error e =>
           .error ("Validation failed for field '" ++ field_name ++ "': " ++ e))
  | none => .ok value

/-- Dispatch to each action's validation rule (`Remove.validate` returns
`None`). -/
def validateAction (mf : List (String × FieldInfo)) :
    UpdateAction → Except String PyVal
  | .set f v => validateSet mf f v
  | .remove _ => .ok .pnone
  | .add f v => validateAdd mf f v
  | .delete f v => validateDelete mf f v

/-- The grouping loop of `UpdateBuilder._compile` (updates.py lines 242-267):
validate each action in order (first failure aborts), reclassify a
`Set`-to-`None` as a `Remove`, and group by kind preserving order. -/
def groupActions (mf : List (String × FieldInfo)) :
    List UpdateAction →
      Except String (List (String × PyVal) × List String ×
        List (String × PyVal) × List (String × PyVal))
  | [] => .ok ([], [], [], [])
  | a :: rest =>
      match validateAction mf a with
      | .error e => .error e
      | .ok vv =>
          match groupActions mf rest with
          | .error e => .error e
          | .ok (sets, removes, adds, deletes) =>
              match a with
              | .set f _ =>
                  (match vv with
                   | .pnone => .ok (sets, f :: removes, adds, deletes)
                   | _ => .ok ((f, vv) :: sets, removes, adds, deletes))
              | .remove f => .ok (sets, f :: removes, adds, deletes)
              | .add f _ => .ok (sets, removes, (f, vv) :: adds, deletes)
              | .delete f _ => .ok (sets, removes, adds, (f, vv) :: deletes)

/-- `get_name_ph` placeholder text (updates.py lines 279-287). -/
def phName (k : Nat) : String := "#u_n" ++ toString k

/-- `get_value_ph` placeholder text (updates.py lines 289-296). -/
def phValue (k : Nat) : String := ":u_v" ++ toString k

/-- Clause emission for the name-and-value action groups (SET uses the
separator `" = "`, ADD and DELETE a single space), allocating a fresh name
and value placeholder per action and serializing each value; returns the
clauses, the name/value bindings and the advanced counters. -/
def compilePairClauses (sep : String) :
    List (String × PyVal) → Nat → Nat →
      Except String (List String × List (String × String) ×
        List (String × Wire) × Nat × Nat)
  | [], nc, vc => .ok ([], [], [], nc, vc)
  | (f, v) :: rest, nc, vc =>
      match to_dynamo_value v with
      | .error e => .error e
      | .ok w =>
          match compilePairClauses sep rest (nc + 1) (vc + 1) with
          | .error e => .error e
          | .ok (cls, ns, vs, nc', vc') =>
              .ok ((phName nc ++ sep ++ phValue vc) :: cls,
                (phName nc, f) :: ns, (phValue vc, w) :: vs, nc', vc')

/-- Clause emission for REMOVE (names only). -/
def compileRemoveClauses :
    List String → Nat → List String × List (String × String) × Nat
  | [], nc => ([], [], nc)
  | f :: rest, nc =>
      let r := compileRemoveClauses rest (nc + 1)
      (phName nc :: r.1, (phName nc, f) :: r.2.1, r.2.2)

structure UpdateParams where
  updateExpression : String
  conditionExpression : Option String := none
  expressionAttributeNames : Option (List (String × String)) := none
  expressionAttributeValues : Option (List (String × Wire)) := none

structure UpdateBuilder where
  model_cls : String
  model_fields : List (String × FieldInfo)
  meta : ModelOptions
  pk : PyVal
  sk : Option PyVal
  actions : List UpdateAction
  condition : Option DynCondition
  return_values : String

/-- `UpdateBuilder.add` (updates.py lines 191-199). -/
def UpdateBuilder.addAction (b : UpdateBuilder) (field : String) (value : PyVal) :
    UpdateBuilder :=
  { b with actions := b.actions ++ [.add field value] }

/-- `UpdateBuilder.return_values` (updates.py lines 221-231). -/
def UpdateBuilder.returnValues (b : UpdateBuilder) (rv : String) : UpdateBuilder :=
  { b with return_values := rv }

/-- `UpdateBuilder._compile` (updates.py lines 233-353): validate and group,
emit clauses in the fixed SET, REMOVE, ADD, DELETE order with shared
counters, merge an attached condition's compiled maps, and omit empty
maps. -/
def compileUpdate (b : UpdateBuilder)
    (compileUser : DynCondition → CompiledCondition) :
    Except String UpdateParams :=
  match b.actions with
  | [] => .error "No update actions specified"
  | _ :: _ =>
      match groupActions b.model_fields b.actions with
      | .error e => .error e
      | .ok (sets, removes, adds, deletes) =>
          match compilePairClauses " = " sets 0 0 with
          | .error e => .error e
          | .ok (setCls, ns1, vs1, nc1, vc1) =>
              let r := compileRemoveClauses removes nc1
              match compilePairClauses " " adds r.2.2 vc1 with
              | .error e => .error e
              | .ok (addCls, ns3, vs3, nc3, vc3) =>
                  match compilePairClauses " " deletes nc3 vc3 with
                  | .error e => .error e
                  | .ok (delCls, ns4, vs4, _, _) =>
                      let parts :=
                        (if !setCls.isEmpty then
                          ["SET " ++ String.intercalate ", " setCls] else []) ++
                        (if !r.1.isEmpty then
                          ["REMOVE " ++ String.intercalate ", " r.1] else []) ++
                        (if !addCls.isEmpty then
                          ["ADD " ++ String.intercalate ", " addCls] else []) ++
                        (if !delCls.isEmpty then
                          ["DELETE " ++ String.intercalate ", " delCls] else [])
                      let names0 := ns1 ++ r.2.1 ++ ns3 ++ ns4
                      let values0 := vs1 ++ vs3 ++ vs4
                      let withCond :=
                        match b.condition with
                        | some c =>
                            let cc := compileUser c
                            (some cc.conditionExpression,
                              amerge names0 cc.attributeNames,
                              amerge values0 cc.attributeValues)
                        | none => (none, names0, values0)
                      .ok { updateExpression := String.intercalate " " parts
                            conditionExpression := withCond.1
                            expressionAttributeNames :=
                              if withCond.2.1.isEmpty then none
                              else some withCond.2.1
                            expressionAttributeValues :=
                              if withCond.2.2.isEmpty then none
                              else some withCond.2.2 }

/-- The `Key` dict built at the start of `UpdateBuilder.execute` (updates.py
lines 356-359): partition key always, sort key only when both the supplied
sort-key value and the schema's sort-key name are truthy. -/
def UpdateBuilder.key_dict (b : UpdateBuilder) : List (String × PyVal) :=
  (b.meta.pk_name, b.pk) ::
    (match b.sk with
     | some skv =>
         if pyTruthy skv ∧ truthyStrOpt b.meta.sk_name then
           (match b.meta.sk_name with
            | some skn => [(skn, skv)]
            | none => [])
         else []
     | none => [])

/-- A store response to `update_item`: the optional `Attributes` map. -/
structure StoreResponse where
  attributes : Option (List (String × Wire))
deriving Repr

/-- The full request `execute` submits to the store. -/
structure FullUpdateParams where
  params : UpdateParams
  tableName : String
  key : List (String × Wire)
  returnValues : String

/-- What `execute` hands back: a resolved model instance or the raw store
response. -/
inductive UpdateResult : Type where
  | model (inst : String × List (String × PyVal))
  | raw (resp : StoreResponse)

/-- `UpdateBuilder.execute` (updates.py lines 355-407): build and serialize
the key, compile (validation failures abort here, before the network), issue
the store call, then deserialize through polymorphic item resolution only
when the mode is `ALL_NEW` and the response carries `Attributes`; otherwise
return the raw response. -/
def UpdateBuilder.execute (b : UpdateBuilder)
    (compileUser : DynCondition → CompiledCondition)
    (store : FullUpdateParams → StoreResponse) : Except String UpdateResult :=
  match to_dynamo b.key_dict with
  | .error e => .error e
  | .ok dynamo_key =>
      match compileUpdate b compileUser with
      | .error e => .error e
      | .ok params =>
          let response := store
            { params := params, tableName := b.meta.table_name,
              key := dynamo_key, returnValues := b.return_values }
          if b.return_values = "ALL_NEW" ∧ response.attributes.isSome then
            match response.attributes with
            | some attrs =>
                .ok (.model (deserialize_item b.model_cls b.meta
                  (from_dynamo attrs)))
            | none => .ok (.raw response)
          else .ok (.raw response)

/-! ## Claim theorems: update execution (C4, C6) -/

/-- C4 amended theorem.  `execute()` deserializes the returned attributes
through polymorphic item resolution into a model instance only for the
`ALL_NEW` mode (when the response carries `Attributes`); every other mode —
including the new-image mode `UPDATED_NEW` — gets the raw store response
back unchanged. -/
theorem update_execute_return_modes (b : UpdateBuilder)
    (compileUser : DynCondition → CompiledCondition) (resp : StoreResponse)
    {dynamo_key : List (String × Wire)} {params : UpdateParams}
    (hk : to_dynamo b.key_dict = Except.ok dynamo_key)
    (hc : compileUpdate b compileUser = Except.ok params) :
    (b.return_values = "ALL_NEW" → ∀ attrs, resp.attributes = some attrs →
      b.execute compileUser (fun _ => resp) =
        Except.ok (.model (deserialize_item b.model_cls b.meta
          (from_dynamo attrs)))) ∧
    (b.return_values ≠ "ALL_NEW" →
      b.execute compileUser (fun _ => resp) = Except.ok (.raw resp)) ∧
    (resp.attributes = none →
      b.execute compileUser (fun _ => resp) = Except.ok (.raw resp)) := by
  unfold UpdateBuilder.execute
  rw [hk, hc]
  dsimp only
  refine ⟨?_, ?_, ?_⟩
  · intro hrv attrs hattrs
    rw [if_pos ⟨hrv, by rw [hattrs]; rfl⟩, hattrs]
  · intro hrv
    rw [if_neg fun hcond => hrv hcond.1]
  · intro hattrs
    rw [if_neg fun hcond => by rw [hattrs] at hcond; exact absurd hcond.2 (by simp)]

/-- The declared fields for the C4 structures: one free-form field. -/
def c4Fields : List (String × FieldInfo) :=
  [("name", { field_alias := none, coerce := fun v => .ok v })]

/-- An update builder with one SET action and mode `UPDATED_NEW`. -/
def c4Builder : UpdateBuilder :=
  { model_cls := "User", model_fields := c4Fields,
    meta := { table_name := "t", pk_name := "pk" }, pk := .pstr "p",
    sk := none, actions := [.set "name" (.pstr "x")], condition := none,
    return_values := "UPDATED_NEW" }

/-- A store response carrying `Attributes`. -/
def c4Resp : StoreResponse := { attributes := some [("name", .S "x")] }

/-- C4 counterexample.  With mode `UPDATED_NEW` — a mode the claim says
requests the new image and must be deserialized — `execute()` returns the
raw store response, not a model instance, even though the response carries
`Attributes` (updates.py line 403 checks only `== "ALL_NEW"`). -/
theorem update_execute_updated_new_counterexample :
    c4Builder.execute (fun _ => { conditionExpression := "" })
        (fun _ => c4Resp) = Except.ok (.raw c4Resp) ∧
    UpdateResult.raw c4Resp ≠ UpdateResult.model
      (deserialize_item "User" c4Builder.meta (from_dynamo [("name", .S "x")])) := by
  exact ⟨rfl, by simp⟩

/-- Witness for C4: the same builder switched to `ALL_NEW` does get the
deserialized model instance back. -/
theorem update_execute_return_modes_witness :
    (c4Builder.returnValues "ALL_NEW").execute
        (fun _ => { conditionExpression := "" }) (fun _ => c4Resp) =
      Except.ok (.model (deserialize_item "User"
        (c4Builder.returnValues "ALL_NEW").meta
        (from_dynamo [("name", .S "x")]))) :=
  (update_execute_return_modes (c4Builder.returnValues "ALL_NEW")
    (fun _ => { conditionExpression := "" }) c4Resp rfl rfl).1 rfl
    [("name", .S "x")] rfl

/-- Validating the ADD action whose coerced value is neither a number nor a
set yields exactly the fatal ADD error. -/
theorem validateAdd_rejects (mf : List (String × FieldInfo)) (f : String)
    (v : PyVal) (fi : FieldInfo) (cv : PyVal)
    (hfi : get_field_info mf f = some fi) (hco : fi.coerce v = Except.ok cv)
    (hnum : isNumberPy cv = false) (hset : isSetPy cv = false) :
    validateAdd mf f v = Except.error
      ("Invalid type for ADD operation on field '" ++ f ++
        "'. DynamoDB ADD supports only Numbers and Sets. " ++
        "Got: " ++ pyTypeName cv) := by
  unfold validateAdd
  rw [hfi]
  simp only [hco]
  rw [if_neg (by simp [hnum, hset])]

/-- The grouping loop propagates the first failing validation. -/
theorem groupActions_error (mf : List (String × FieldInfo)) (msg : String) :
    ∀ (pre : List UpdateAction) (a : UpdateAction) (post : List UpdateAction),
      (∀ x ∈ pre, ∃ vv, validateAction mf x = Except.ok vv) →
      validateAction mf a = Except.error msg →
      groupActions mf (pre ++ a :: post) = Except.error msg := by
  intro pre
  induction pre with
  | nil =>
      intro a post _ ha
      rw [List.nil_append, groupActions, ha]
  | cons x rest ih =>
      intro a post hpre ha
      obtain ⟨vv, hvv⟩ := hpre x (List.Mem.head _)
      rw [List.cons_append, groupActions, hvv,
        ih a post (fun y hy => hpre y (List.mem_cons_of_mem _ hy)) ha]

/-- C6 (confirmed).  Executing an update containing an Add action whose
value, after coercion against the declared field type, is neither a number
nor a set fails with the local "DynamoDB ADD supports only Numbers and
Sets" validation error naming the field — uniformly in the store function,
i.e. before any network call — even though the declared field type accepted
the coerced value. -/
theorem add_validation_blocks_execute (b : UpdateBuilder)
    (compileUser : DynCondition → CompiledCondition)
    (pre post : List UpdateAction) (f : String) (v : PyVal) (fi : FieldInfo)
    (cv : PyVal) {dynamo_key : List (String × Wire)}
    (hacts : b.actions = pre ++ UpdateAction.add f v :: post)
    (hpre : ∀ x ∈ pre, ∃ vv, validateAction b.model_fields x = Except.ok vv)
    (hfi : get_field_info b.model_fields f = some fi)
    (hco : fi.coerce v = Except.ok cv)
    (hnum : isNumberPy cv = false) (hset : isSetPy cv = false)
    (hkey : to_dynamo b.key_dict = Except.ok dynamo_key) :
    ∀ store, b.execute compileUser store = Except.error
      ("Invalid type for ADD operation on field '" ++ f ++
        "'. DynamoDB ADD supports only Numbers and Sets. " ++
        "Got: " ++ pyTypeName cv) := by
  intro store
  have hval : validateAction b.model_fields (.add f v) = Except.error
      ("Invalid type for ADD operation on field '" ++ f ++
        "'. DynamoDB ADD supports only Numbers and Sets. " ++
        "Got: " ++ pyTypeName cv) :=
    validateAdd_rejects b.model_fields f v fi cv hfi hco hnum hset
  have hgroup := groupActions_error b.model_fields _ pre (.add f v) post
    hpre hval
  have hcomp : compileUpdate b compileUser = Except.error
      ("Invalid type for ADD operation on field '" ++ f ++
        "'. DynamoDB ADD supports only Numbers and Sets. " ++
        "Got: " ++ pyTypeName cv) := by
    unfold compileUpdate
    rw [hacts]
    cases hpp : pre ++ UpdateAction.add f v :: post with
    | nil => exact absurd hpp (by simp)
    | cons y ys =>
        rw [hpp] at hgroup
        rw [hgroup]
  unfold UpdateBuilder.execute
  rw [hkey, hcomp]

/-- The declared fields for the C6 witness: a string-typed field whose
coercion stringifies the increment (pydantic accepts it). -/
def c6Fields : List (String × FieldInfo) :=
  [("note", { field_alias := none, coerce := fun _ => .ok (.pstr "1") })]

/-- `update("p").add("note", 1)` against the string-typed field. -/
def c6Builder : UpdateBuilder :=
  { model_cls := "User", model_fields := c6Fields,
    meta := { table_name := "t", pk_name := "pk" }, pk := .pstr "p",
    sk := none, actions := [.add "note" (.pint 1)], condition := none,
    return_values := "NONE" }

/-- Witness for C6: the concrete `add` on a string-declared field fails
locally with the ADD error naming the field, for an arbitrary store. -/
theorem add_validation_blocks_execute_witness :
    c6Builder.execute (fun _ => { conditionExpression := "" })
        (fun _ => { attributes := none }) = Except.error
      ("Invalid type for ADD operation on field '" ++ "note" ++
        "'. DynamoDB ADD supports only Numbers and Sets. " ++
        "Got: " ++ pyTypeName (.pstr "1")) :=
  add_validation_blocks_execute c6Builder
    (fun _ => { conditionExpression := "" }) [] [] "note" (.pint 1)
    { field_alias := none, coerce := fun _ => .ok (.pstr "1") } (.pstr "1")
    rfl (by intro x hx; cases hx) rfl rfl rfl rfl rfl
    (fun _ => { attributes := none })

/-! ## Error translator (exceptions.py `handle_dynamo_errors`)

A transport fault (`botocore.exceptions.ClientError`) carries a response
with optional `Error.Code` / `Error.Message` fields; `str(e)` is the message
fallback.  The context manager's translation of a caught fault is embedded
as a total function into the closed library taxonomy — by construction no
native fault type escapes. -/

structure ClientError where
  error_code : Option String
  error_message : Option String
  as_str : String
deriving Repr, DecidableEq

/-- `e.response.get("Error", {}).get("Code", "Unknown")`. -/
def ClientError.code (e : ClientError) : String := e.error_code.getD "Unknown"

/-- `e.response.get("Error", {}).get("Message", str(e))`. -/
def ClientError.msg (e : ClientError) : String := e.error_message.getD e.as_str

/-- The closed error taxonomy (exceptions.py), each constructor carrying the
arguments its class is raised with plus the original fault as cause. -/
inductive DynanticErr : Type where
  | tableNotFound (table_name : String) (original : ClientError)
  | conditionalCheckFailed (condition : Option String) (original : ClientError)
  | provisionedThroughputExceeded (message : String) (original : ClientError)
  | validationError (message : String) (original : ClientError)
  | itemCollectionSizeLimit (message : String) (original : ClientError)
  | transactionConflict (message : String) (original : ClientError)
  | requestTimeout (message : String) (original : ClientError)
  | generic (message : String) (original : ClientError)
deriving Repr, DecidableEq

/-- The `original_error` every taxonomy class stores. -/
def DynanticErr.original : DynanticErr → ClientError
  | .tableNotFound _ e => e
  | .conditionalCheckFailed _ e => e
  | .provisionedThroughputExceeded _ e => e
  | .validationError _ e => e
  | .itemCollectionSizeLimit _ e => e
  | .transactionConflict _ e => e
  | .requestTimeout _ e => e
  | .generic _ e => e

/-- `handle_dynamo_errors` (exceptions.py lines 99-147), the translation a
caught `ClientError` undergoes: recognized codes map to their taxonomy
class, everything else wraps into the generic `DynanticError` whose message
retains the code and original message. -/
def handle_dynamo_errors (table_name : Option String) (e : ClientError) :
    DynanticErr :=
  let error_code := e.code
  let error_message := e.msg
  if error_code = "ResourceNotFoundException" then
    .tableNotFound
      (match table_name with
       | some t => if t = "" then "unknown" else t
       | none => "unknown") e
  else if error_code = "ConditionalCheckFailedException" then
    .conditionalCheckFailed none e
  else if error_code = "ProvisionedThroughputExceededException" ∨
      error_code = "ThrottlingException" ∨
      error_code = "RequestLimitExceeded" then
    .provisionedThroughputExceeded error_message e
  else if error_code = "ValidationException" ∨
      error_code = "SerializationException" then
    .validationError error_message e
  else if error_code = "ItemCollectionSizeLimitExceededException" then
    .itemCollectionSizeLimit error_message e
  else if error_code = "TransactionConflictException" then
    .transactionConflict error_message e
  else if error_code = "RequestTimeout" ∨
      error_code = "RequestTimeoutException" then
    .requestTimeout error_message e
  else
    .generic ("DynamoDB error (" ++ error_code ++ "): " ++ error_message) e

/-- The fault codes with a dedicated taxonomy class. -/
def recognizedCodes : List String :=
  ["ResourceNotFoundException", "ConditionalCheckFailedException",
   "ProvisionedThroughputExceededException", "ThrottlingException",
   "RequestLimitExceeded", "ValidationException", "SerializationException",
   "ItemCollectionSizeLimitExceededException",
   "TransactionConflictException", "RequestTimeout",
   "RequestTimeoutException"]

/-- C9 (confirmed).  Translation is total into the typed taxonomy (the
native fault never escapes — the codomain is `DynanticErr`), always retains
the original fault as the cause, maps each recognized fault code to its
specific class, and wraps every unrecognized code into the generic library
error whose message retains the code and the original message. -/
theorem error_translation_closed (t : Option String) (e : ClientError) :
    ((handle_dynamo_errors t e).original = e) ∧
    (e.code = "ResourceNotFoundException" →
      handle_dynamo_errors t e = .tableNotFound
        (match t with
         | some tn => if tn = "" then "unknown" else tn
         | none => "unknown") e) ∧
    (e.code = "ConditionalCheckFailedException" →
      handle_dynamo_errors t e = .conditionalCheckFailed none e) ∧
    (∀ c ∈ (["ProvisionedThroughputExceededException", "ThrottlingException",
        "RequestLimitExceeded"] : List String), e.code = c →
      handle_dynamo_errors t e = .provisionedThroughputExceeded e.msg e) ∧
    (∀ c ∈ (["ValidationException", "SerializationException"] : List String),
      e.code = c →
      handle_dynamo_errors t e = .validationError e.msg e) ∧
    (e.code = "ItemCollectionSizeLimitExceededException" →
      handle_dynamo_errors t e = .itemCollectionSizeLimit e.msg e) ∧
    (e.code = "TransactionConflictException" →
      handle_dynamo_errors t e = .transactionConflict e.msg e) ∧
    (∀ c ∈ (["RequestTimeout", "RequestTimeoutException"] : List String),
      e.code = c →
      handle_dynamo_errors t e = .requestTimeout e.msg e) ∧
    (e.code ∉ recognizedCodes →
      handle_dynamo_errors t e =
        .generic ("DynamoDB error (" ++ e.code ++ "): " ++ e.msg) e) := by
  refine ⟨?_, ?_, ?_, ?_, ?_, ?_, ?_, ?_, ?_⟩
  · unfold handle_dynamo_errors
    dsimp only
    repeat' split
    all_goals rfl
  · intro h
    unfold handle_dynamo_errors
    rw [if_pos h]
  · intro h
    unfold handle_dynamo_errors
    rw [if_neg (by rw [h]; decide), if_pos h]
  · intro c hc h
    unfold handle_dynamo_errors
    fin_cases hc <;>
      rw [if_neg (by rw [h]; decide), if_neg (by rw [h]; decide),
        if_pos (by rw [h]; decide)]
  · intro c hc h
    unfold handle_dynamo_errors
    fin_cases hc <;>
      rw [if_neg (by rw [h]; decide), if_neg (by rw [h]; decide),
        if_neg (by rw [h]; decide), if_pos (by rw [h]; decide)]
  · intro h
    unfold handle_dynamo_errors
    rw [if_neg (by rw [h]; decide), if_neg (by rw [h]; decide),
      if_neg (by rw [h]; decide), if_neg (by rw [h]; decide), if_pos h]
  · intro h
    unfold handle_dynamo_errors
    rw [if_neg (by rw [h]; decide), if_neg (by rw [h]; decide),
      if_neg (by rw [h]; decide), if_neg (by rw [h]; decide),
      if_neg (by rw [h]; decide), if_pos h]
  · intro c hc h
    unfold handle_dynamo_errors
    fin_cases hc <;>
      rw [if_neg (by rw [h]; decide), if_neg (by rw [h]; decide),
        if_neg (by rw [h]; decide), if_neg (by rw [h]; decide),
        if_neg (by rw [h]; decide), if_neg (by rw [h]; decide),
        if_pos (by rw [h]; decide)]
  · intro h
    have nc : ∀ c ∈ recognizedCodes, ¬(e.code = c) :=
      fun c hc hh => h (hh ▸ hc)
    unfold handle_dynamo_errors
    have h3 : ¬(e.code = "ProvisionedThroughputExceededException" ∨
        e.code = "ThrottlingException" ∨ e.code = "RequestLimitExceeded") := by
      rintro (hh | hh | hh) <;> exact nc _ (by decide) hh
    have h4 : ¬(e.code = "ValidationException" ∨
        e.code = "SerializationException") := by
      rintro (hh | hh) <;> exact nc _ (by decide) hh
    have h7 : ¬(e.code = "RequestTimeout" ∨
        e.code = "RequestTimeoutException") := by
      rintro (hh | hh) <;> exact nc _ (by decide) hh
    rw [if_neg (nc _ (by decide)), if_neg (nc _ (by decide)), if_neg h3,
      if_neg h4, if_neg (nc _ (by decide)), if_neg (nc _ (by decide)),
      if_neg h7]

/-- Witness for C9: an unrecognized code (`"SomeNewException"`) wraps into
the generic error retaining the code and message, with the original fault as
cause. -/
theorem error_translation_closed_witness :
    handle_dynamo_errors (some "users")
        { error_code := some "SomeNewException",
          error_message := some "boom", as_str := "ClientError" } =
      .generic ("DynamoDB error (" ++ "SomeNewException" ++ "): " ++ "boom")
        { error_code := some "SomeNewException",
          error_message := some "boom", as_str := "ClientError" } ∧
    (handle_dynamo_errors (some "users")
        { error_code := some "SomeNewException",
          error_message := some "boom", as_str := "ClientError" }).original =
      { error_code := some "SomeNewException",
        error_message := some "boom", as_str := "ClientError" } :=
  ⟨(error_translation_closed (some "users")
      { error_code := some "SomeNewException",
        error_message := some "boom", as_str := "ClientError" }).2.2.2.2.2.2.2.2
      (by decide),
   (error_translation_closed (some "users")
      { error_code := some "SomeNewException",
        error_message := some "boom", as_str := "ClientError" }).1⟩

/-- Witness for C7: a polymorphic base (`discriminator_field = "type"`) with
registry `{"A" ↦ "AClass"}` resolving a map whose discriminator value `"Z"`
is unregistered falls back to the base class itself. -/
theorem deserialize_item_fallback_witness :
    deserialize_item "BaseClass"
      { table_name := "t", pk_name := "pk", discriminator_field := some "type",
        entity_registry := [("A", "AClass")], is_base_entity := true }
      [("pk", .pstr "p"), ("type", .pstr "Z")] =
      ("BaseClass", [("pk", .pstr "p"), ("type", .pstr "Z")]) :=
  (deserialize_item_fallback "BaseClass"
    { table_name := "t", pk_name := "pk", discriminator_field := some "type",
      entity_registry := [("A", "AClass")], is_base_entity := true }
    [("pk", .pstr "p"), ("type", .pstr "Z")]).2.2.2.2 "type" "Z" rfl rfl rfl

end Dynantic
